import Mathlib

/-!
# Alarm clock controller (`src/clock.h`, `src/clock.cpp`)

A shallow embedding of the `Clock` class: the member variables become the
fields of a structure, every member function becomes a function on that
structure, and the two hardware collaborators (the TM1637 display and the
buzzer) become explicit fields that record what was sent to them.

Machine integers are `Nat` (unsigned) and `Int` (signed) with explicit
wrap-around where a conversion can change the value.
-/

namespace AlarmClock

/-! ## Enumerations of `clock.h` -/

/-- Normal state: display the clock. -/
abbrev STATE_CLOCK : Nat := 0
/-- Menu, displaying "SET". -/
abbrev STATE_MENU_SET : Nat := 1
/-- Menu, displaying "AL". -/
abbrev STATE_MENU_ALARM : Nat := 2
/-- Set clock state. -/
abbrev STATE_SET_CLOCK : Nat := 3
/-- Set alarm state. -/
abbrev STATE_SET_ALARM : Nat := 4
/-- Alarm menu selected while the alarm switch is off, displaying "OFF". -/
abbrev STATE_ALARM_OFF : Nat := 5
/-- The alarm state: the buzzer sounds and the display blinks. -/
abbrev STATE_ALARM : Nat := 6

/-- Left digits of the display (hours), `0b10`. -/
abbrev DIGITS_LEFT : Nat := 2
/-- Right digits of the display (minutes), `0b01`. -/
abbrev DIGITS_RIGHT : Nat := 1
/-- Middle colon, `0b100`. -/
abbrev POINT : Nat := 4

/-- Button type enum. -/
inductive ButtonType where
  | BUTTON_MENU
  | BUTTON_PLUS
  | BUTTON_MINUS
  | BUTTON_OK
  deriving DecidableEq, Repr

/-! ## Integer conversions -/

/-- Conversion of an integer value to `int8_t` (two's complement wrap). -/
def toInt8 (x : Int) : Int := (x + 128) % 256 - 128

/-- Conversion of an integer value to `uint8_t`. -/
def toUInt8 (x : Int) : Nat := (x % 256).toNat

/-- Conversion of an integer value to `uint32_t`. -/
def toUInt32 (x : Int) : Nat := (x % 4294967296).toNat

/-! ## Pointers to the stored times -/

/-- The values a `uint32_t *` member or local takes in `clock.cpp`:
`nullptr`, `&time`, `&alarm` or `&temp_time`. -/
inductive TimePtr where
  | null
  | time
  | alarm
  | temp_time
  deriving DecidableEq, Repr

/-! ## Collaborators -/

/-- What the TM1637 display was last asked to show. -/
inductive Shown where
  | nothing
  | text (label : String)
  | digits (d0 d1 d2 d3 : Int)
  deriving DecidableEq, Repr

/-- The display collaborator: the colon flag given to `point` and the last
content given to `displayStr` or `display`. -/
structure TM1637 where
  point : Bool
  shown : Shown
  deriving DecidableEq, Repr

/-! ## The `Clock` class -/

/-- The member variables of `Clock`, followed by the state of the display and
the number of `alarm_tone->play()` calls made so far. -/
structure Clock where
  time : Nat
  alarm : Nat
  time_to_set : TimePtr
  temp_time : Nat
  timestamp : Nat
  state : Nat
  set_digit : Nat
  alarm_enabled : Bool
  blink_state : Nat
  display_state : Nat
  alarm_off_counter : Nat
  alarm_counter : Nat
  display : TM1637
  tone_plays : Nat
  deriving DecidableEq, Repr

/-- The object after construction: the default member initialisers of
`clock.h`; the two counters have none and are left as given. -/
def Clock.initial (alarm_off_counter alarm_counter : Nat) : Clock :=
  { time := 0
    alarm := 0
    time_to_set := TimePtr.null
    temp_time := 0
    timestamp := 0
    state := STATE_CLOCK
    set_digit := DIGITS_LEFT
    alarm_enabled := false
    blink_state := POINT
    display_state := DIGITS_LEFT ||| POINT ||| DIGITS_RIGHT
    alarm_off_counter := alarm_off_counter
    alarm_counter := alarm_counter
    display := { point := false, shown := Shown.nothing }
    tone_plays := 0 }

/-- `Clock::set_time(uint8_t hours, uint8_t minutes, uint8_t seconds)`.
The operands are promoted to `int`; for `uint8_t` arguments neither the
shifts nor the product leave the range of `int`. -/
def Clock.set_time (c : Clock) (hours minutes seconds : Nat) : Clock :=
  { c with
    time := 0 ||| (hours <<< 12) ||| (minutes <<< 6) ||| seconds
    timestamp := (hours * 3600 + minutes * 60 + seconds) * 1000 }

/-- `Clock::set_alarm(uint8_t hours, uint8_t minutes)`. -/
def Clock.set_alarm (c : Clock) (hours minutes : Nat) : Clock :=
  { c with alarm := 0 ||| (hours <<< 12) ||| (minutes <<< 6) }

/-- `Clock::set_temp_time(int8_t offset)`.
The three locals are `int8_t`; `%` is the C remainder (truncating).  The
final expression is an `int` converted to `uint32_t`: on the two's complement
target `x << k` is `x * 2^k` and the conversion of a bitwise OR is the OR of
the conversions. -/
def Clock.set_temp_time (c : Clock) (offset : Int) : Clock :=
  let hours : Int := toInt8 (c.temp_time >>> 12 : Nat)
  let minutes : Int := toInt8 ((c.temp_time >>> 6) &&& 63 : Nat)
  let seconds : Int := toInt8 (c.temp_time &&& 63 : Nat)
  let hours : Int :=
    if c.set_digit = DIGITS_LEFT then toInt8 (Int.tmod (hours + 24 + offset) 24) else hours
  let minutes : Int :=
    if c.set_digit = DIGITS_LEFT then minutes else toInt8 (Int.tmod (minutes + 60 + offset) 60)
  { c with
    temp_time := 0 ||| toUInt32 (hours * 4096) ||| toUInt32 (minutes * 64) ||| toUInt32 seconds }

/-- `Clock::commit_temp_time()`.  The `int8_t` locals are converted to the
`uint8_t` parameters of `set_time` and `set_alarm`. -/
def Clock.commit_temp_time (c : Clock) : Clock :=
  let hours : Int := toInt8 (c.temp_time >>> 12 : Nat)
  let minutes : Int := toInt8 ((c.temp_time >>> 6) &&& 63 : Nat)
  let seconds : Int := toInt8 (c.temp_time &&& 63 : Nat)
  if c.time_to_set = TimePtr.time then
    c.set_time (toUInt8 hours) (toUInt8 minutes) (toUInt8 seconds)
  else
    c.set_alarm (toUInt8 hours) (toUInt8 minutes)

/-- `Clock::handleButtonMenuPress()`. -/
def Clock.handleButtonMenuPress (c : Clock) : Clock :=
  let c := { c with display_state := DIGITS_LEFT ||| POINT ||| DIGITS_RIGHT }
  if c.state = STATE_CLOCK ∨ c.state = STATE_MENU_SET ∨ c.state = STATE_MENU_ALARM then
    { c with state := (c.state + 1) % 3 }
  else if c.state = STATE_SET_CLOCK ∨ c.state = STATE_SET_ALARM then
    { c with state := STATE_CLOCK, set_digit := DIGITS_LEFT }
  else c

/-- `Clock::handleButtonOkPress()`. -/
def Clock.handleButtonOkPress (c : Clock) : Clock :=
  let c := { c with display_state := DIGITS_LEFT ||| POINT ||| DIGITS_RIGHT }
  if c.state = STATE_MENU_SET then
    { c with temp_time := c.time, time_to_set := TimePtr.time, state := STATE_SET_CLOCK }
  else if c.state = STATE_MENU_ALARM then
    let c := { c with temp_time := c.alarm, time_to_set := TimePtr.alarm }
    if c.alarm_enabled then
      { c with state := STATE_SET_ALARM }
    else
      { c with state := STATE_ALARM_OFF, alarm_off_counter := 6 }
  else if c.state = STATE_SET_CLOCK ∨ c.state = STATE_SET_ALARM then
    let c :=
      if c.set_digit = DIGITS_RIGHT then
        Clock.commit_temp_time { c with state := STATE_CLOCK }
      else c
    { c with set_digit := c.set_digit ^^^ (DIGITS_LEFT ||| DIGITS_RIGHT) }
  else if c.state = STATE_ALARM then
    { c with state := STATE_CLOCK }
  else c

/-- `Clock::handleButtonPlusPress()`. -/
def Clock.handleButtonPlusPress (c : Clock) : Clock := c.set_temp_time 1

/-- `Clock::handleButtonMinusPress()`. -/
def Clock.handleButtonMinusPress (c : Clock) : Clock := c.set_temp_time (-1)

/-- `Clock::handleSwitchAlarmChange(bool alarm_pin)`. -/
def Clock.handleSwitchAlarmChange (c : Clock) (alarm_pin : Bool) : Clock :=
  { c with alarm_enabled := alarm_pin }

/-- Reading through a `uint32_t *`.  `show` only dereferences
`time_on_display` in the four digit states, where its first `switch` has
assigned it; the value given for `nullptr` is never used there. -/
def Clock.deref (c : Clock) : TimePtr → Nat
  | TimePtr.null => 0
  | TimePtr.time => c.time
  | TimePtr.alarm => c.alarm
  | TimePtr.temp_time => c.temp_time

/-- The first `switch` of `Clock::show()`: selects the blink mask and the
time to display, and in `STATE_ALARM` plays the buzzer and counts down.
Returns the object together with the local `time_on_display`. -/
def Clock.show_select (c : Clock) : Clock × TimePtr :=
  if c.state = STATE_CLOCK then
    ({ c with blink_state := POINT }, TimePtr.time)
  else if c.state = STATE_SET_CLOCK ∨ c.state = STATE_SET_ALARM then
    ({ c with blink_state := c.set_digit }, TimePtr.temp_time)
  else if c.state = STATE_ALARM then
    let c := { c with
      blink_state := DIGITS_LEFT ||| POINT ||| DIGITS_RIGHT
      tone_plays := c.tone_plays + 1
      alarm_counter := (c.alarm_counter + 255) % 256 }
    if c.alarm_counter = 0 then
      ({ c with
          state := STATE_CLOCK
          display_state := DIGITS_LEFT ||| POINT ||| DIGITS_RIGHT
          blink_state := POINT }, TimePtr.alarm)
    else (c, TimePtr.alarm)
  else (c, TimePtr.null)

/-- The rest of `Clock::show()`: `display->point(0)` and the second `switch`,
which sends either a text label or the four digits and the colon. -/
def Clock.show_render (c : Clock) (time_on_display : TimePtr) : Clock :=
  let c := { c with display := { c.display with point := false } }
  if c.state = STATE_MENU_SET then
    { c with display := { c.display with shown := Shown.text "SET" } }
  else if c.state = STATE_MENU_ALARM then
    { c with display := { c.display with shown := Shown.text "AL" } }
  else if c.state = STATE_ALARM_OFF then
    let c := { c with
      display := { c.display with shown := Shown.text "OFF" }
      alarm_off_counter := (c.alarm_off_counter + 255) % 256 }
    if c.alarm_off_counter = 0 then { c with state := STATE_CLOCK } else c
  else if c.state = STATE_CLOCK ∨ c.state = STATE_ALARM ∨ c.state = STATE_SET_CLOCK
      ∨ c.state = STATE_SET_ALARM then
    let display_state := c.display_state ^^^ c.blink_state
    let hours : Int := toInt8 (c.deref time_on_display >>> 12 : Nat)
    let minutes : Int := toInt8 ((c.deref time_on_display >>> 6) &&& 63 : Nat)
    let d01 : Int × Int :=
      if (display_state &&& DIGITS_LEFT) >>> 1 ≠ 0 then
        (toInt8 (Int.tdiv hours 10), toInt8 (Int.tmod hours 10))
      else (127, 127)
    let point : Bool := decide ((display_state &&& POINT) >>> 2 ≠ 0)
    let d23 : Int × Int :=
      if display_state &&& DIGITS_RIGHT ≠ 0 then
        (toInt8 (Int.tdiv minutes 10), toInt8 (Int.tmod minutes 10))
      else (127, 127)
    { c with
      display_state := display_state
      display := { point := point, shown := Shown.digits d01.1 d01.2 d23.1 d23.2 } }
  else c

/-- `Clock::show()`. -/
def Clock.show (c : Clock) : Clock :=
  Clock.show_render (Clock.show_select c).1 (Clock.show_select c).2

/-- `Clock::check_alarm()`. -/
def Clock.check_alarm (c : Clock) : Clock :=
  if c.alarm_enabled = true ∧ c.time = c.alarm then
    { c with
      state := STATE_ALARM
      alarm_counter := 60
      display_state := DIGITS_LEFT ||| POINT ||| DIGITS_RIGHT }
  else c

/-- `Clock::update_time()`.  `timestamp + 500` is a `uint32_t` sum; the three
locals are `uint8_t`. -/
def Clock.update_time (c : Clock) : Clock :=
  let timestamp := ((c.timestamp + 500) % 4294967296) % (24 * 60 * 60 * 1000)
  let hour := (timestamp / 3600000) % 256
  let minutes := ((timestamp % 3600000) / 60000) % 256
  let seconds := ((timestamp % 60000) / 1000) % 256
  { c with
    timestamp := timestamp
    time := 0 ||| (hour <<< 12) ||| (minutes <<< 6) ||| seconds }

/-- The timer interrupt service routine `onTimer()`, called every 0.5 s. -/
def onTimer (c : Clock) : Clock :=
  c.update_time.check_alarm.show

/-! ## Events -/

/-- The inputs delivered to the controller: the periodic timer interrupt, a
button press, or a change of the alarm switch. -/
inductive Event where
  | timer
  | button (b : ButtonType)
  | switchAlarm (alarm_pin : Bool)
  deriving DecidableEq, Repr

/-- The handler run for one event. -/
def step (c : Clock) : Event → Clock
  | Event.timer => onTimer c
  | Event.button ButtonType.BUTTON_MENU => c.handleButtonMenuPress
  | Event.button ButtonType.BUTTON_PLUS => c.handleButtonPlusPress
  | Event.button ButtonType.BUTTON_MINUS => c.handleButtonMinusPress
  | Event.button ButtonType.BUTTON_OK => c.handleButtonOkPress
  | Event.switchAlarm alarm_pin => c.handleSwitchAlarmChange alarm_pin

/-- The handlers run for a sequence of events, first event first. -/
def run (c : Clock) (events : List Event) : Clock :=
  events.foldl step c

/-! ## Vocabulary of the specification -/

/-- The 17-bit encoding documented at `Clock::set_time`: hours in bits 16..12,
minutes in bits 11..6, seconds in bits 5..0. -/
def packTime (hours minutes seconds : Nat) : Nat :=
  (hours <<< 12) ||| (minutes <<< 6) ||| seconds

/-- The hours field of a packed time, as decoded by `temp_time >> 12`. -/
def hoursOf (t : Nat) : Nat := t >>> 12

/-- The minutes field of a packed time, as decoded by `temp_time >> 6 & 0b111111`. -/
def minutesOf (t : Nat) : Nat := (t >>> 6) &&& 63

/-- The seconds field of a packed time, as decoded by `temp_time & 0b111111`. -/
def secondsOf (t : Nat) : Nat := t &&& 63

/-- A packed time whose three fields are in range. -/
def ValidTime (t : Nat) : Prop := hoursOf t < 24 ∧ minutesOf t < 60 ∧ secondsOf t < 60

/-- The states the start-up code can produce before the first event: the
constructed object, followed by calls of `set_time` and `set_alarm` with
in-range arguments. -/
inductive Setup : Clock → Prop where
  | initial (alarm_off_counter alarm_counter : Nat) :
      alarm_off_counter < 256 → alarm_counter < 256 →
      Setup (Clock.initial alarm_off_counter alarm_counter)
  | set_time {c : Clock} (hours minutes seconds : Nat) :
      Setup c → hours < 24 → minutes < 60 → seconds < 60 →
      Setup (c.set_time hours minutes seconds)
  | set_alarm {c : Clock} (hours minutes : Nat) :
      Setup c → hours < 24 → minutes < 60 → Setup (c.set_alarm hours minutes)

/-- A state is reachable when some sequence of events leads to it from a
start-up state. -/
def Reachable (c : Clock) : Prop :=
  ∃ (c₀ : Clock) (events : List Event), Setup c₀ ∧ c = run c₀ events

/-- The invariant of the reachable states: the packed clock time is the
decoding of the millisecond counter, the alarm and the edit buffer have
in-range fields, the commit pointer agrees with the edit mode, and the focus
is one of the two digit groups. -/
structure Inv (c : Clock) : Prop where
  timestamp_lt : c.timestamp < 86400000
  time_eq : c.time = packTime (c.timestamp / 3600000) (c.timestamp % 3600000 / 60000)
    (c.timestamp % 60000 / 1000)
  alarm_valid : ValidTime c.alarm
  temp_valid : ValidTime c.temp_time
  set_clock_ptr : c.state = STATE_SET_CLOCK → c.time_to_set = TimePtr.time
  set_alarm_ptr : c.state = STATE_SET_ALARM → c.time_to_set = TimePtr.alarm
  digit : c.set_digit = DIGITS_LEFT ∨ c.set_digit = DIGITS_RIGHT

/-- The display invariant of the reachable states: `display_state` has no bit
outside the three groups, both digit groups are visible in `STATE_CLOCK`, and
everything is visible in `STATE_ALARM_OFF`. -/
structure DisplayInv (c : Clock) : Prop where
  bits : c.display_state < 8
  clock_digits : c.state = STATE_CLOCK → c.display_state = 7 ∨ c.display_state = 3
  off_all : c.state = STATE_ALARM_OFF → c.display_state = 7

/-- Either a decimal digit or the blank marker `0x7f`. -/
def isDigitOrBlank (d : Int) : Prop := (0 ≤ d ∧ d ≤ 9) ∨ d = 127

/-- The frame the specification's Renderer produces from the visible bits and
the hours and minutes: two digits or two blank markers on each side, and the
colon flag. -/
def specFrame (display_state hours minutes : Nat) : TM1637 :=
  { point := decide (display_state &&& POINT ≠ 0)
    shown := Shown.digits
      (if display_state &&& DIGITS_LEFT ≠ 0 then ((hours / 10 : Nat) : Int) else 127)
      (if display_state &&& DIGITS_LEFT ≠ 0 then ((hours % 10 : Nat) : Int) else 127)
      (if display_state &&& DIGITS_RIGHT ≠ 0 then ((minutes / 10 : Nat) : Int) else 127)
      (if display_state &&& DIGITS_RIGHT ≠ 0 then ((minutes % 10 : Nat) : Int) else 127) }

/-- The counter invariant of the reachable states: while the alarm rings the
ring counter is in 1..60, and while the "OFF" notice is shown the notice
counter is in 1..6. -/
structure CounterInv (c : Clock) : Prop where
  ring : c.state = STATE_ALARM → 1 ≤ c.alarm_counter ∧ c.alarm_counter ≤ 60
  notice : c.state = STATE_ALARM_OFF → 1 ≤ c.alarm_off_counter ∧ c.alarm_off_counter ≤ 6

open ButtonType

/-! ## Bit arithmetic of the packed time -/

theorem or_fields (h m s : Nat) (hm : m < 64) (hs : s < 64) :
    h * 4096 ||| m * 64 ||| s = h * 4096 + m * 64 + s := by
  have h1 : 2 ^ 12 * h + m * 64 = 2 ^ 12 * h ||| m * 64 :=
    Nat.mul_add_lt_is_or (by omega) h
  have h2 : 2 ^ 6 * (h * 64 + m) + s = 2 ^ 6 * (h * 64 + m) ||| s :=
    Nat.mul_add_lt_is_or (by omega) (h * 64 + m)
  have e1 : h * 4096 = 2 ^ 12 * h := by omega
  have e2 : h * 4096 + m * 64 = 2 ^ 6 * (h * 64 + m) := by omega
  rw [e1, ← h1, ← e1, e2, ← h2]

theorem packTime_eq (h m s : Nat) (hm : m < 64) (hs : s < 64) :
    packTime h m s = h * 4096 + m * 64 + s := by
  unfold packTime
  rw [Nat.shiftLeft_eq, Nat.shiftLeft_eq]
  exact or_fields h m s hm hs

theorem shr12 (x : Nat) : x >>> 12 = x / 4096 := Nat.shiftRight_eq_div_pow x 12
theorem shr6_and (x : Nat) : (x >>> 6) &&& 63 = (x / 64) % 64 := by
  rw [Nat.shiftRight_eq_div_pow x 6]
  exact Nat.and_pow_two_sub_one_eq_mod (x / 2 ^ 6) 6
theorem and63 (x : Nat) : x &&& 63 = x % 64 := Nat.and_pow_two_sub_one_eq_mod x 6

theorem toInt8_of_lt (n : Nat) (h : n < 128) : toInt8 (n : Int) = (n : Int) := by
  unfold toInt8; omega
theorem toUInt8_natCast (n : Nat) (h : n < 256) : toUInt8 (n : Int) = n := by
  unfold toUInt8; omega
theorem toUInt32_natCast (n : Nat) (h : n < 4294967296) : toUInt32 (n : Int) = n := by
  unfold toUInt32; omega


theorem hoursOf_packTime (h m s : Nat) (hm : m < 64) (hs : s < 64) :
    hoursOf (packTime h m s) = h := by
  unfold hoursOf; rw [shr12, packTime_eq h m s hm hs]; omega

theorem minutesOf_packTime (h m s : Nat) (hm : m < 64) (hs : s < 64) :
    minutesOf (packTime h m s) = m := by
  unfold minutesOf; rw [shr6_and, packTime_eq h m s hm hs]; omega

theorem secondsOf_packTime (h m s : Nat) (hm : m < 64) (hs : s < 64) :
    secondsOf (packTime h m s) = s := by
  unfold secondsOf; rw [and63, packTime_eq h m s hm hs]; omega

theorem packTime_fields (t : Nat) : packTime (hoursOf t) (minutesOf t) (secondsOf t) = t := by
  have hm : minutesOf t < 64 := by unfold minutesOf; rw [shr6_and]; omega
  have hs : secondsOf t < 64 := by unfold secondsOf; rw [and63]; omega
  rw [packTime_eq _ _ _ hm hs]
  unfold hoursOf minutesOf secondsOf
  rw [shr12, shr6_and, and63]; omega

/-! ## Time keeping: `set_time`, `set_alarm`, `update_time` -/

theorem set_time_time (c : Clock) (h m s : Nat) : (c.set_time h m s).time = packTime h m s := by
  simp [Clock.set_time, packTime]

theorem set_alarm_alarm (c : Clock) (h m : Nat) : (c.set_alarm h m).alarm = packTime h m 0 := by
  simp [Clock.set_alarm, packTime]

theorem update_time_timestamp (c : Clock) :
    c.update_time.timestamp = ((c.timestamp + 500) % 4294967296) % 86400000 := by
  simp [Clock.update_time]

theorem update_time_time (c : Clock) :
    c.update_time.time =
      packTime (c.update_time.timestamp / 3600000)
        ((c.update_time.timestamp % 3600000) / 60000)
        ((c.update_time.timestamp % 60000) / 1000) := by
  have hlt : c.update_time.timestamp < 86400000 := by
    rw [update_time_timestamp]; omega
  have e : c.update_time.time =
      packTime ((c.update_time.timestamp / 3600000) % 256)
        (((c.update_time.timestamp % 3600000) / 60000) % 256)
        (((c.update_time.timestamp % 60000) / 1000) % 256) := by
    simp [Clock.update_time, packTime]
  rw [e]
  congr 1 <;> omega

/-- C10: for a millisecond counter below 86 400 000, `update_time` adds 500
without 32-bit overflow and wraps at one day, the new counter is again below
86 400 000, and the packed time holds hours = ms/3 600 000,
minutes = (ms mod 3 600 000)/60 000 and seconds = (ms mod 60 000)/1000 of the
new counter, with hours < 24, minutes < 60 and seconds < 60. -/
theorem update_time_advances (c : Clock) (hms : c.timestamp < 86400000) :
    c.timestamp + 500 < 4294967296 ∧
    c.update_time.timestamp = (c.timestamp + 500) % 86400000 ∧
    c.update_time.timestamp < 86400000 ∧
    c.update_time.time =
      packTime (c.update_time.timestamp / 3600000)
        ((c.update_time.timestamp % 3600000) / 60000)
        ((c.update_time.timestamp % 60000) / 1000) ∧
    hoursOf c.update_time.time = c.update_time.timestamp / 3600000 ∧
    minutesOf c.update_time.time = (c.update_time.timestamp % 3600000) / 60000 ∧
    secondsOf c.update_time.time = (c.update_time.timestamp % 60000) / 1000 ∧
    c.update_time.timestamp / 3600000 < 24 ∧
    (c.update_time.timestamp % 3600000) / 60000 < 60 ∧
    (c.update_time.timestamp % 60000) / 1000 < 60 := by
  have hts : c.update_time.timestamp = (c.timestamp + 500) % 86400000 := by
    rw [update_time_timestamp]; omega
  have hlt : c.update_time.timestamp < 86400000 := by rw [hts]; omega
  have hm : (c.update_time.timestamp % 3600000) / 60000 < 60 := by omega
  have hs : (c.update_time.timestamp % 60000) / 1000 < 60 := by omega
  refine ⟨by omega, hts, hlt, update_time_time c, ?_, ?_, ?_, by omega, hm, hs⟩
  · rw [update_time_time, hoursOf_packTime _ _ _ (by omega) (by omega)]
  · rw [update_time_time, minutesOf_packTime _ _ _ (by omega) (by omega)]
  · rw [update_time_time, secondsOf_packTime _ _ _ (by omega) (by omega)]

/-- C10 at the last half second of the day: the counter wraps to 0. -/
theorem update_time_advances_witness :
    ((Clock.initial 0 0).set_time 23 59 59).update_time.update_time.timestamp
      = (((Clock.initial 0 0).set_time 23 59 59).update_time.timestamp + 500) % 86400000 :=
  (update_time_advances ((Clock.initial 0 0).set_time 23 59 59).update_time
    (by decide)).2.1

/-! ## The alarm trigger: `check_alarm` -/

theorem packTime_inj (h m s h' m' s' : Nat) (hm : m < 64) (hs : s < 64) (hm' : m' < 64)
    (hs' : s' < 64) (e : packTime h m s = packTime h' m' s') : h = h' ∧ m = m' ∧ s = s' := by
  rw [packTime_eq h m s hm hs, packTime_eq h' m' s' hm' hs'] at e
  omega

theorem check_alarm_of_not (c : Clock) (h : ¬(c.alarm_enabled = true ∧ c.time = c.alarm)) :
    c.check_alarm = c := by
  unfold Clock.check_alarm; rw [if_neg h]

theorem check_alarm_of_match (c : Clock) (h : c.alarm_enabled = true ∧ c.time = c.alarm) :
    c.check_alarm = { c with
      state := STATE_ALARM
      alarm_counter := 60
      display_state := DIGITS_LEFT ||| POINT ||| DIGITS_RIGHT } := by
  unfold Clock.check_alarm; rw [if_pos h]

/-- C1 (amended): `check_alarm` compares the whole packed words, seconds
included.  For a clock time h:m:s and an alarm ah:am set with seconds 0, it
sets the state to `STATE_ALARM` if and only if the alarm is enabled and the
packed time equals the packed alarm, that is if and only if the alarm is
enabled, h = ah, m = am and s = 0. -/
theorem check_alarm_triggers_iff (c : Clock) (h m s ah am : Nat)
    (hm : m < 60) (hs : s < 60) (ham : am < 60)
    (htime : c.time = packTime h m s) (halarm : c.alarm = packTime ah am 0)
    (hstate : c.state ≠ STATE_ALARM) :
    (c.check_alarm.state = STATE_ALARM ↔ (c.alarm_enabled = true ∧ c.time = c.alarm)) ∧
    (c.check_alarm.state = STATE_ALARM ↔
      (c.alarm_enabled = true ∧ h = ah ∧ m = am ∧ s = 0)) := by
  have key : c.check_alarm.state = STATE_ALARM ↔ (c.alarm_enabled = true ∧ c.time = c.alarm) := by
    by_cases hc : c.alarm_enabled = true ∧ c.time = c.alarm
    · rw [check_alarm_of_match c hc]; simp [hc]
    · rw [check_alarm_of_not c hc]; simp [hc, hstate]
  refine ⟨key, key.trans ?_⟩
  rw [htime, halarm]
  constructor
  · rintro ⟨he, ht⟩
    have := packTime_inj h m s ah am 0 (by omega) (by omega) (by omega) (by omega) ht
    exact ⟨he, this⟩
  · rintro ⟨he, rfl, rfl, rfl⟩
    exact ⟨he, rfl⟩

/-- The amended C1 at 07:00:00 with the alarm at 07:00 and the switch on. -/
theorem check_alarm_triggers_iff_witness :
    ((((Clock.initial 0 0).set_time 7 0 0).set_alarm 7 0).handleSwitchAlarmChange
      true).check_alarm.state = STATE_ALARM :=
  (check_alarm_triggers_iff
    ((((Clock.initial 0 0).set_time 7 0 0).set_alarm 7 0).handleSwitchAlarmChange true)
    7 0 0 7 0 (by decide) (by decide) (by decide) (by decide) (by decide)
    (by decide)).2.mpr ⟨by decide, rfl, rfl, rfl⟩

/-- C1 fails as stated: at 07:00:30 with the alarm at 07:00 and the switch on,
the hours and the minutes agree and the alarm is enabled, yet `check_alarm`
does not set `STATE_ALARM`. -/
theorem check_alarm_ignores_seconds_counterexample :
    ¬ (((((Clock.initial 0 0).set_time 7 0 30).set_alarm 7 0).handleSwitchAlarmChange
          true).check_alarm.state = STATE_ALARM ↔
        ((((Clock.initial 0 0).set_time 7 0 30).set_alarm 7 0).handleSwitchAlarmChange
            true).alarm_enabled = true ∧
          hoursOf ((((Clock.initial 0 0).set_time 7 0 30).set_alarm 7 0).handleSwitchAlarmChange
            true).time =
            hoursOf ((((Clock.initial 0 0).set_time 7 0 30).set_alarm 7 0).handleSwitchAlarmChange
              true).alarm ∧
          minutesOf ((((Clock.initial 0 0).set_time 7 0 30).set_alarm 7 0).handleSwitchAlarmChange
            true).time =
            minutesOf ((((Clock.initial 0 0).set_time 7 0 30).set_alarm 7
              0).handleSwitchAlarmChange true).alarm) := by
  decide

/-! ## Cancelling an edit -/

/-- C9: in `STATE_SET_CLOCK` or `STATE_SET_ALARM`, whatever the edit buffer
and the focus are, the MENU button yields `STATE_CLOCK` with the focus on the
hours and leaves the clock time, the millisecond counter, the alarm time and
`alarm_enabled` unchanged. -/
theorem menu_cancels_edit (c : Clock)
    (hstate : c.state = STATE_SET_CLOCK ∨ c.state = STATE_SET_ALARM) :
    c.handleButtonMenuPress.state = STATE_CLOCK ∧
    c.handleButtonMenuPress.set_digit = DIGITS_LEFT ∧
    c.handleButtonMenuPress.time = c.time ∧
    c.handleButtonMenuPress.timestamp = c.timestamp ∧
    c.handleButtonMenuPress.alarm = c.alarm ∧
    c.handleButtonMenuPress.alarm_enabled = c.alarm_enabled := by
  rcases hstate with h | h <;> simp [Clock.handleButtonMenuPress, h]

/-- C9 on an edit of the clock with the focus on the minutes. -/
theorem menu_cancels_edit_witness :
    ({ Clock.initial 0 0 with
        state := STATE_SET_CLOCK, set_digit := DIGITS_RIGHT,
        temp_time := packTime 9 30 0 }).handleButtonMenuPress.state = STATE_CLOCK :=
  (menu_cancels_edit ({ Clock.initial 0 0 with
    state := STATE_SET_CLOCK, set_digit := DIGITS_RIGHT, temp_time := packTime 9 30 0 })
    (Or.inl rfl)).1

/-! ## Expiry of the ring counter -/

/-- C5 (amended): in `STATE_ALARM` with the ring counter at 1, `show`
decrements the counter to 0, returns to `STATE_CLOCK` and sets the blink mask
to the colon only; `display_state` is all-on after the first `switch` and is
then XORed once with the blink mask by the same call, so it ends as
`DIGITS_LEFT | DIGITS_RIGHT` with the colon off. -/
theorem show_ring_expiry (c : Clock) (hstate : c.state = STATE_ALARM)
    (hcount : c.alarm_counter = 1) :
    c.show.alarm_counter = 0 ∧
    c.show.state = STATE_CLOCK ∧
    c.show.blink_state = POINT ∧
    c.show_select.1.display_state = DIGITS_LEFT ||| POINT ||| DIGITS_RIGHT ∧
    c.show.display_state = DIGITS_LEFT ||| DIGITS_RIGHT := by
  simp [Clock.show, Clock.show_select, Clock.show_render, hstate, hcount]
  decide

/-- The amended C5 on a ringing clock whose counter is 1. -/
theorem show_ring_expiry_witness :
    ({ Clock.initial 0 0 with state := STATE_ALARM, alarm_counter := 1 }).show.display_state
      = DIGITS_LEFT ||| DIGITS_RIGHT :=
  (show_ring_expiry ({ Clock.initial 0 0 with state := STATE_ALARM, alarm_counter := 1 })
    rfl rfl).2.2.2.2

/-! ## One timer tick -/

theorem update_time_frame (c : Clock) :
    c.update_time.state = c.state ∧ c.update_time.alarm = c.alarm ∧
    c.update_time.alarm_enabled = c.alarm_enabled ∧
    c.update_time.alarm_counter = c.alarm_counter ∧
    c.update_time.display_state = c.display_state ∧
    c.update_time.set_digit = c.set_digit ∧
    c.update_time.temp_time = c.temp_time ∧
    c.update_time.time_to_set = c.time_to_set ∧
    c.update_time.tone_plays = c.tone_plays ∧
    c.update_time.alarm_off_counter = c.alarm_off_counter := by
  simp [Clock.update_time]

theorem show_select_frame (c : Clock) :
    c.show_select.1.time = c.time ∧ c.show_select.1.timestamp = c.timestamp ∧
    c.show_select.1.alarm = c.alarm ∧ c.show_select.1.alarm_enabled = c.alarm_enabled ∧
    c.show_select.1.temp_time = c.temp_time ∧ c.show_select.1.time_to_set = c.time_to_set ∧
    c.show_select.1.set_digit = c.set_digit := by
  simp only [Clock.show_select]
  split_ifs <;> exact ⟨rfl, rfl, rfl, rfl, rfl, rfl, rfl⟩

theorem show_render_frame (c : Clock) (p : TimePtr) :
    (c.show_render p).time = c.time ∧ (c.show_render p).timestamp = c.timestamp ∧
    (c.show_render p).alarm = c.alarm ∧ (c.show_render p).alarm_enabled = c.alarm_enabled ∧
    (c.show_render p).temp_time = c.temp_time ∧
    (c.show_render p).time_to_set = c.time_to_set ∧
    (c.show_render p).set_digit = c.set_digit ∧
    (c.show_render p).alarm_counter = c.alarm_counter ∧
    (c.show_render p).tone_plays = c.tone_plays ∧
    (c.show_render p).blink_state = c.blink_state := by
  simp only [Clock.show_render]
  split_ifs <;> exact ⟨rfl, rfl, rfl, rfl, rfl, rfl, rfl, rfl, rfl, rfl⟩

theorem show_frame (c : Clock) :
    c.show.time = c.time ∧ c.show.timestamp = c.timestamp ∧ c.show.alarm = c.alarm ∧
    c.show.alarm_enabled = c.alarm_enabled ∧ c.show.temp_time = c.temp_time ∧
    c.show.time_to_set = c.time_to_set ∧ c.show.set_digit = c.set_digit := by
  have a := show_select_frame c
  have b := show_render_frame c.show_select.1 c.show_select.2
  unfold Clock.show
  exact ⟨b.1.trans a.1, b.2.1.trans a.2.1, b.2.2.1.trans a.2.2.1,
    b.2.2.2.1.trans a.2.2.2.1, b.2.2.2.2.1.trans a.2.2.2.2.1,
    b.2.2.2.2.2.1.trans a.2.2.2.2.2.1, b.2.2.2.2.2.2.1.trans a.2.2.2.2.2.2⟩

theorem onTimer_no_trigger (c : Clock)
    (h : ¬(c.alarm_enabled = true ∧ c.update_time.time = c.alarm)) :
    onTimer c = c.update_time.show := by
  unfold onTimer
  rw [check_alarm_of_not]
  rw [(update_time_frame c).2.1, (update_time_frame c).2.2.1]
  exact h

theorem show_state_clock (c : Clock) (h : c.state = STATE_CLOCK) :
    c.show.state = STATE_CLOCK ∧ c.show.alarm_counter = c.alarm_counter ∧
    c.show.tone_plays = c.tone_plays ∧
    c.show.display_state = c.display_state ^^^ POINT := by
  simp [Clock.show, Clock.show_select, Clock.show_render, h]

theorem show_state_alarm (c : Clock) (h : c.state = STATE_ALARM)
    (hc : (c.alarm_counter + 255) % 256 ≠ 0) :
    c.show.state = STATE_ALARM ∧ c.show.alarm_counter = (c.alarm_counter + 255) % 256 ∧
    c.show.tone_plays = c.tone_plays + 1 ∧
    c.show.display_state = c.display_state ^^^ (DIGITS_LEFT ||| POINT ||| DIGITS_RIGHT) := by
  simp [Clock.show, Clock.show_select, Clock.show_render, h, hc]

theorem check_alarm_match_fields (c : Clock)
    (h : c.alarm_enabled = true ∧ c.time = c.alarm) :
    c.check_alarm.state = STATE_ALARM ∧ c.check_alarm.alarm_counter = 60 ∧
    c.check_alarm.display_state = DIGITS_LEFT ||| POINT ||| DIGITS_RIGHT ∧
    c.check_alarm.tone_plays = c.tone_plays := by
  rw [check_alarm_of_match c h]
  exact ⟨rfl, rfl, rfl, rfl⟩

theorem onTimer_trigger (c : Clock)
    (h : c.alarm_enabled = true ∧ c.update_time.time = c.alarm) :
    c.update_time.check_alarm.alarm_counter = 60 ∧
    c.update_time.check_alarm.display_state = DIGITS_LEFT ||| POINT ||| DIGITS_RIGHT ∧
    (onTimer c).state = STATE_ALARM ∧ (onTimer c).alarm_counter = 59 ∧
    (onTimer c).display_state = 0 ∧ (onTimer c).tone_plays = c.tone_plays + 1 := by
  have h' : c.update_time.alarm_enabled = true ∧ c.update_time.time = c.update_time.alarm := by
    rw [(update_time_frame c).2.1, (update_time_frame c).2.2.1]; exact h
  have hm := check_alarm_match_fields c.update_time h'
  have hs := show_state_alarm c.update_time.check_alarm hm.1 (by rw [hm.2.1]; decide)
  rw [hm.2.1, hm.2.2.1, hm.2.2.2, (update_time_frame c).2.2.2.2.2.2.2.2.1] at hs
  exact ⟨hm.2.1, hm.2.2.1, hs.1, hs.2.1, hs.2.2.2, hs.2.2.1⟩

theorem second_tick_core (c0 : Clock) (h m sec : Nat) (hm : m < 60)
    (hsec : sec % 60 = 59) (hsec' : sec < 86400)
    (hnext : (sec + 1) % 86400 = h * 3600 + m * 60)
    (hts0 : c0.timestamp = sec * 1000) (hal0 : c0.alarm = packTime h m 0)
    (hen0 : c0.alarm_enabled = true) (hst0 : c0.state = STATE_CLOCK) :
    (onTimer c0).state = STATE_CLOCK ∧ (onTimer (onTimer c0)).state = STATE_ALARM ∧
    (onTimer c0).update_time.check_alarm.alarm_counter = 60 ∧
    (onTimer (onTimer c0)).alarm_counter = 59 := by
  -- first tick: 500 ms later the clock still shows second 59
  have hts1 : c0.update_time.timestamp = sec * 1000 + 500 := by
    have e1 : (sec * 1000 + 500) % 4294967296 = sec * 1000 + 500 :=
      Nat.mod_eq_of_lt (by omega)
    have e2 : (sec * 1000 + 500) % 86400000 = sec * 1000 + 500 :=
      Nat.mod_eq_of_lt (by omega)
    rw [update_time_timestamp, hts0, e1, e2]
  have hno : ¬(c0.alarm_enabled = true ∧ c0.update_time.time = c0.alarm) := by
    rintro ⟨-, ht⟩
    rw [update_time_time, hal0, hts1] at ht
    have := packTime_inj _ _ _ _ _ _ (by omega) (by omega) (by omega) (by omega) ht
    omega
  have h1 : onTimer c0 = c0.update_time.show := onTimer_no_trigger c0 hno
  have hst1 : (onTimer c0).state = STATE_CLOCK := by
    rw [h1]; exact (show_state_clock _ (by rw [(update_time_frame c0).1]; exact hst0)).1
  have hts1' : (onTimer c0).timestamp = sec * 1000 + 500 := by
    rw [h1, (show_frame _).2.1]; exact hts1
  have hal1 : (onTimer c0).alarm = packTime h m 0 := by
    rw [h1, (show_frame _).2.2.1, (update_time_frame c0).2.1]; exact hal0
  have hen1 : (onTimer c0).alarm_enabled = true := by
    rw [h1, (show_frame _).2.2.2.1, (update_time_frame c0).2.2.1]; exact hen0
  -- second tick: the clock reaches h:m:00
  have hts2 : (onTimer c0).update_time.timestamp = (h * 3600 + m * 60) * 1000 := by
    have e1 : (sec * 1000 + 500 + 500) % 4294967296 = (sec + 1) * 1000 := by
      rw [Nat.mod_eq_of_lt (by omega)]; ring
    have e2 : (sec + 1) * 1000 % 86400000 = (sec + 1) % 86400 * 1000 :=
      Nat.mul_mod_mul_right 1000 (sec + 1) 86400
    rw [update_time_timestamp, hts1', e1, e2, hnext]
  have hyes : (onTimer c0).alarm_enabled = true ∧
      (onTimer c0).update_time.time = (onTimer c0).alarm := by
    refine ⟨hen1, ?_⟩
    have ea : (h * 3600 + m * 60) * 1000 / 3600000 = h := by omega
    have eb : (h * 3600 + m * 60) * 1000 % 3600000 / 60000 = m := by omega
    have ec : (h * 3600 + m * 60) * 1000 % 60000 / 1000 = 0 := by omega
    rw [update_time_time, hal1, hts2, ea, eb, ec]
  have h2 := onTimer_trigger (onTimer c0) hyes
  exact ⟨hst1, h2.2.2.1, h2.1, h2.2.2.2.1⟩

/-- C2 (amended): a tick is 500 ms.  With the clock set by `set_time` to the
second h':m':59 immediately before h:m:00, the alarm set to h:m and the switch
on, in `STATE_CLOCK`, the first tick leaves `STATE_CLOCK`; on the second tick
`check_alarm` sets the ring counter to 60 and `show` decrements it, so the
state is `STATE_ALARM` with the ring counter at 59. -/
theorem alarm_rings_on_second_tick (c : Clock) (h m h' m' : Nat)
    (hstate : c.state = STATE_CLOCK) (hm : m < 60) (hh' : h' < 24) (hm' : m' < 60)
    (hnext : (h' * 3600 + m' * 60 + 59 + 1) % 86400 = h * 3600 + m * 60) :
    (onTimer (((c.set_time h' m' 59).set_alarm h m).handleSwitchAlarmChange true)).state
      = STATE_CLOCK ∧
    (onTimer (onTimer
      (((c.set_time h' m' 59).set_alarm h m).handleSwitchAlarmChange true))).state
      = STATE_ALARM ∧
    (onTimer (((c.set_time h' m' 59).set_alarm h m).handleSwitchAlarmChange
      true)).update_time.check_alarm.alarm_counter = 60 ∧
    (onTimer (onTimer
      (((c.set_time h' m' 59).set_alarm h m).handleSwitchAlarmChange true))).alarm_counter
      = 59 :=
  second_tick_core (((c.set_time h' m' 59).set_alarm h m).handleSwitchAlarmChange true)
    h m (h' * 3600 + m' * 60 + 59) hm (by omega) (by omega) hnext rfl
    (set_alarm_alarm (c.set_time h' m' 59) h m) rfl hstate

/-- The amended C2 at `set_time(6,59,59)`, `set_alarm(7,0)`, switch on. -/
theorem alarm_rings_on_second_tick_witness :
    (onTimer ((((Clock.initial 0 0).set_time 6 59 59).set_alarm 7 0).handleSwitchAlarmChange
      true)).state = STATE_CLOCK ∧
    (onTimer (onTimer ((((Clock.initial 0 0).set_time 6 59 59).set_alarm 7
      0).handleSwitchAlarmChange true))).state = STATE_ALARM ∧
    (onTimer ((((Clock.initial 0 0).set_time 6 59 59).set_alarm 7 0).handleSwitchAlarmChange
      true)).update_time.check_alarm.alarm_counter = 60 ∧
    (onTimer (onTimer ((((Clock.initial 0 0).set_time 6 59 59).set_alarm 7
      0).handleSwitchAlarmChange true))).alarm_counter = 59 :=
  alarm_rings_on_second_tick (Clock.initial 0 0) 7 0 6 59 rfl (by decide) (by decide)
    (by decide) (by decide)

/-- C2 fails as stated: from `set_time(6,59,59)`, `set_alarm(7,0)`, switch on,
one tick does not leave the state `STATE_ALARM` with the ring counter at 60. -/
theorem one_tick_rings_counterexample :
    ¬ ((onTimer ((((Clock.initial 0 0).set_time 6 59 59).set_alarm 7
        0).handleSwitchAlarmChange true)).state = STATE_ALARM ∧
      (onTimer ((((Clock.initial 0 0).set_time 6 59 59).set_alarm 7
        0).handleSwitchAlarmChange true)).alarm_counter = 60) := by
  decide

/-! ## Ticks while the alarm rings -/

/-- A tick while the alarm rings on which the condition of `check_alarm`
fails (the alarm is disabled, or the updated packed time differs from the
packed alarm, in particular when their seconds fields differ): the ring
counter and `display_state` are left alone by `check_alarm`, and `show`
decrements the counter by one (modulo 256); unless the counter reaches 0 the
state stays `STATE_ALARM` and `display_state` is XORed with the all-on mask. -/
theorem ringing_tick_without_match (c : Clock) (hstate : c.state = STATE_ALARM)
    (hno : c.alarm_enabled = false ∨ c.update_time.time ≠ c.alarm ∨
      secondsOf c.update_time.time ≠ secondsOf c.alarm) :
    c.update_time.check_alarm.alarm_counter = c.alarm_counter ∧
    c.update_time.check_alarm.display_state = c.display_state ∧
    (onTimer c).alarm_counter = (c.alarm_counter + 255) % 256 ∧
    (1 ≤ c.alarm_counter → c.alarm_counter < 256 →
      (onTimer c).alarm_counter + 1 = c.alarm_counter) ∧
    ((c.alarm_counter + 255) % 256 ≠ 0 →
      (onTimer c).state = STATE_ALARM ∧
      (onTimer c).display_state = c.display_state ^^^ (DIGITS_LEFT ||| POINT ||| DIGITS_RIGHT)) := by
  have hno : ¬(c.alarm_enabled = true ∧ c.update_time.time = c.alarm) := by
    rintro ⟨he, ht⟩
    rcases hno with h | h | h
    · rw [h] at he; exact absurd he (by decide)
    · exact h ht
    · exact h (congrArg secondsOf ht)
  have hu := update_time_frame c
  have hno' : ¬(c.update_time.alarm_enabled = true ∧ c.update_time.time = c.update_time.alarm) := by
    rw [hu.2.1, hu.2.2.1]; exact hno
  have hck : c.update_time.check_alarm = c.update_time := check_alarm_of_not _ hno'
  have hst : c.update_time.state = STATE_ALARM := hu.1.trans hstate
  have hcnt : (onTimer c).alarm_counter = (c.alarm_counter + 255) % 256 := by
    rw [onTimer_no_trigger c hno]
    simp [Clock.show, Clock.show_select, Clock.show_render, hst, hu.2.2.2.1]
    split_ifs <;> simp [hu.2.2.2.1]
  refine ⟨by rw [hck]; exact hu.2.2.2.1, by rw [hck]; exact hu.2.2.2.2.1, hcnt, ?_, ?_⟩
  · intro h1 h2; rw [hcnt]; omega
  · intro hne
    rw [onTimer_no_trigger c hno]
    have hs := show_state_alarm c.update_time hst (by rw [hu.2.2.2.1]; exact hne)
    rw [hu.2.2.2.2.1] at hs
    exact ⟨hs.1, hs.2.2.2⟩

/-- The non-matching tick on a clock ringing at 07:00:01 for the enabled alarm 07:00,
counter at 30: hours and minutes still match, the seconds do not. -/
theorem ringing_tick_without_match_witness :
    (onTimer ({ Clock.initial 0 0 with
      state := STATE_ALARM, alarm_counter := 30, alarm_enabled := true,
      alarm := packTime 7 0 0, time := packTime 7 0 1,
      timestamp := 25201000 })).alarm_counter + 1 = 30 :=
  (ringing_tick_without_match
    ({ Clock.initial 0 0 with
      state := STATE_ALARM, alarm_counter := 30, alarm_enabled := true,
      alarm := packTime 7 0 0, time := packTime 7 0 1, timestamp := 25201000 }) rfl
    (Or.inr (Or.inr (by decide)))).2.2.2.1 (by decide) (by decide)

/-- C3 (the code at the failing input): two ticks after `set_time(6,59,59)`,
`set_alarm(7,0)`, switch on, the clock is ringing with the counter at 59 and
`display_state` 0; on the next tick, at 07:00:00.500, the time still equals
the enabled alarm, `check_alarm` sets the counter back to 60 and
`display_state` back to all-on, and the counter after the tick is 59 again
instead of 58. -/
theorem ringing_tick_retriggers :
    (run ((((Clock.initial 0 0).set_time 6 59 59).set_alarm 7 0).handleSwitchAlarmChange true)
      [Event.timer, Event.timer]).state = STATE_ALARM ∧
    (run ((((Clock.initial 0 0).set_time 6 59 59).set_alarm 7 0).handleSwitchAlarmChange true)
      [Event.timer, Event.timer]).alarm_enabled = true ∧
    (run ((((Clock.initial 0 0).set_time 6 59 59).set_alarm 7 0).handleSwitchAlarmChange true)
      [Event.timer, Event.timer]).update_time.time =
      (run ((((Clock.initial 0 0).set_time 6 59 59).set_alarm 7 0).handleSwitchAlarmChange true)
        [Event.timer, Event.timer]).alarm ∧
    (run ((((Clock.initial 0 0).set_time 6 59 59).set_alarm 7 0).handleSwitchAlarmChange true)
      [Event.timer, Event.timer]).alarm_counter = 59 ∧
    (run ((((Clock.initial 0 0).set_time 6 59 59).set_alarm 7 0).handleSwitchAlarmChange true)
      [Event.timer, Event.timer]).display_state = 0 ∧
    (run ((((Clock.initial 0 0).set_time 6 59 59).set_alarm 7 0).handleSwitchAlarmChange true)
      [Event.timer, Event.timer]).update_time.check_alarm.alarm_counter = 60 ∧
    (run ((((Clock.initial 0 0).set_time 6 59 59).set_alarm 7 0).handleSwitchAlarmChange true)
      [Event.timer, Event.timer]).update_time.check_alarm.display_state = 7 ∧
    (run ((((Clock.initial 0 0).set_time 6 59 59).set_alarm 7 0).handleSwitchAlarmChange true)
      [Event.timer, Event.timer, Event.timer]).alarm_counter = 59 := by
  decide

set_option maxRecDepth 100000

/-- C4 (the code at the failing input): from `set_time(6,59,59)`,
`set_alarm(7,0)`, switch on, the alarm triggers on the second tick; counting
that tick as the first, the state is still `STATE_ALARM` after the 60th tick
(61 ticks in all), and it is `STATE_CLOCK` only after the 61st, the buzzer
having been played 61 times. -/
theorem ring_lasts_61_ticks :
    (run ((((Clock.initial 0 0).set_time 6 59 59).set_alarm 7 0).handleSwitchAlarmChange true)
      (List.replicate 1 Event.timer)).state = STATE_CLOCK ∧
    (run ((((Clock.initial 0 0).set_time 6 59 59).set_alarm 7 0).handleSwitchAlarmChange true)
      (List.replicate 2 Event.timer)).state = STATE_ALARM ∧
    (run ((((Clock.initial 0 0).set_time 6 59 59).set_alarm 7 0).handleSwitchAlarmChange true)
      (List.replicate 2 Event.timer)).tone_plays = 1 ∧
    (run ((((Clock.initial 0 0).set_time 6 59 59).set_alarm 7 0).handleSwitchAlarmChange true)
      (List.replicate 61 Event.timer)).state = STATE_ALARM ∧
    (run ((((Clock.initial 0 0).set_time 6 59 59).set_alarm 7 0).handleSwitchAlarmChange true)
      (List.replicate 61 Event.timer)).tone_plays = 60 ∧
    (run ((((Clock.initial 0 0).set_time 6 59 59).set_alarm 7 0).handleSwitchAlarmChange true)
      (List.replicate 62 Event.timer)).state = STATE_CLOCK ∧
    (run ((((Clock.initial 0 0).set_time 6 59 59).set_alarm 7 0).handleSwitchAlarmChange true)
      (List.replicate 62 Event.timer)).tone_plays = 61 := by
  decide

/-- C5 fails as stated: after `show` on a ringing clock whose counter is 1 the
state is `STATE_CLOCK` and the blink mask is the colon, but `display_state` is
not all-on. -/
theorem show_ring_expiry_counterexample :
    ¬ (({ Clock.initial 0 0 with state := STATE_ALARM, alarm_counter := 1 }).show.state
          = STATE_CLOCK ∧
        ({ Clock.initial 0 0 with state := STATE_ALARM, alarm_counter := 1 }).show.display_state
          = DIGITS_LEFT ||| POINT ||| DIGITS_RIGHT ∧
        ({ Clock.initial 0 0 with state := STATE_ALARM, alarm_counter := 1 }).show.blink_state
          = POINT) := by
  decide

/-! ## Focus on entering an edit mode -/

/-- C7 (the code at the failing input): from the initial state, the events
switch on, MENU, OK, OK, tick, OK, MENU reach `STATE_MENU_SET` with the focus
left on the minutes by the edit the alarm interrupted; pressing OK then enters
`STATE_SET_CLOCK` with `set_digit == DIGITS_RIGHT`. -/
theorem edit_entered_with_minutes_focus :
    (run (Clock.initial 0 0)
      [Event.switchAlarm true, Event.button BUTTON_MENU, Event.button BUTTON_OK,
        Event.button BUTTON_OK, Event.timer, Event.button BUTTON_OK,
        Event.button BUTTON_MENU]).state = STATE_MENU_SET ∧
    (run (Clock.initial 0 0)
      [Event.switchAlarm true, Event.button BUTTON_MENU, Event.button BUTTON_OK,
        Event.button BUTTON_OK, Event.timer, Event.button BUTTON_OK,
        Event.button BUTTON_MENU]).handleButtonOkPress.state = STATE_SET_CLOCK ∧
    (run (Clock.initial 0 0)
      [Event.switchAlarm true, Event.button BUTTON_MENU, Event.button BUTTON_OK,
        Event.button BUTTON_OK, Event.timer, Event.button BUTTON_OK,
        Event.button BUTTON_MENU]).handleButtonOkPress.set_digit = DIGITS_RIGHT := by
  decide

/-! ## Editing: `set_temp_time`, `commit_temp_time` and the OK button -/

theorem set_temp_time_left (c : Clock) (h m s : Nat) (o : Int)
    (hh : h < 24) (hm : m < 60) (hs : s < 60) (ho : 0 ≤ (h : Int) + 24 + o)
    (ht : c.temp_time = packTime h m s) (hd : c.set_digit = DIGITS_LEFT) :
    c.set_temp_time o = { c with temp_time := packTime (((h : Int) + 24 + o) % 24).toNat m s } := by
  have d1 : c.temp_time >>> 12 = h := by rw [ht]; exact hoursOf_packTime h m s (by omega) (by omega)
  have d2 : (c.temp_time >>> 6) &&& 63 = m := by
    rw [ht]; exact minutesOf_packTime h m s (by omega) (by omega)
  have d3 : c.temp_time &&& 63 = s := by
    rw [ht]; exact secondsOf_packTime h m s (by omega) (by omega)
  have eh : toInt8 (Int.tmod (toInt8 (h : Int) + 24 + o) 24)
      = (((((h : Int) + 24 + o) % 24).toNat : Nat) : Int) := by
    rw [toInt8_of_lt h (by omega), Int.tmod_eq_emod ho (by decide)]
    unfold toInt8; omega
  have e1 : toUInt32 ((((((h : Int) + 24 + o) % 24).toNat : Nat) : Int) * 4096)
      = (((h : Int) + 24 + o) % 24).toNat * 4096 := by
    unfold toUInt32; omega
  have e2 : toUInt32 (toInt8 (m : Int) * 64) = m * 64 := by
    rw [toInt8_of_lt m (by omega)]; unfold toUInt32; omega
  have e3 : toUInt32 (toInt8 (s : Int)) = s := by
    rw [toInt8_of_lt s (by omega)]; unfold toUInt32; omega
  simp only [Clock.set_temp_time, d1, d2, d3, hd, if_true, eh, e1, e2, e3]
  simp [packTime, Nat.shiftLeft_eq]

theorem set_temp_time_right (c : Clock) (h m s : Nat) (o : Int)
    (hh : h < 24) (hm : m < 60) (hs : s < 60) (ho : 0 ≤ (m : Int) + 60 + o)
    (ht : c.temp_time = packTime h m s) (hd : c.set_digit ≠ DIGITS_LEFT) :
    c.set_temp_time o = { c with temp_time := packTime h (((m : Int) + 60 + o) % 60).toNat s } := by
  have d1 : c.temp_time >>> 12 = h := by rw [ht]; exact hoursOf_packTime h m s (by omega) (by omega)
  have d2 : (c.temp_time >>> 6) &&& 63 = m := by
    rw [ht]; exact minutesOf_packTime h m s (by omega) (by omega)
  have d3 : c.temp_time &&& 63 = s := by
    rw [ht]; exact secondsOf_packTime h m s (by omega) (by omega)
  have em : toInt8 (Int.tmod (toInt8 (m : Int) + 60 + o) 60)
      = (((((m : Int) + 60 + o) % 60).toNat : Nat) : Int) := by
    rw [toInt8_of_lt m (by omega), Int.tmod_eq_emod ho (by decide)]
    unfold toInt8; omega
  have e1 : toUInt32 (toInt8 (h : Int) * 4096) = h * 4096 := by
    rw [toInt8_of_lt h (by omega)]; unfold toUInt32; omega
  have e2 : toUInt32 ((((((m : Int) + 60 + o) % 60).toNat : Nat) : Int) * 64)
      = (((m : Int) + 60 + o) % 60).toNat * 64 := by
    unfold toUInt32; omega
  have e3 : toUInt32 (toInt8 (s : Int)) = s := by
    rw [toInt8_of_lt s (by omega)]; unfold toUInt32; omega
  simp only [Clock.set_temp_time, d1, d2, d3, hd, if_false, em, e1, e2, e3]
  simp [packTime, Nat.shiftLeft_eq]

theorem plus_left (c : Clock) (h m s : Nat) (hh : h < 24) (hm : m < 60) (hs : s < 60)
    (ht : c.temp_time = packTime h m s) (hd : c.set_digit = DIGITS_LEFT) :
    c.handleButtonPlusPress = { c with temp_time := packTime ((h + 1) % 24) m s } := by
  unfold Clock.handleButtonPlusPress
  rw [set_temp_time_left c h m s 1 hh hm hs (by omega) ht hd]
  have : (((h : Int) + 24 + 1) % 24).toNat = (h + 1) % 24 := by omega
  rw [this]

theorem plus_right (c : Clock) (h m s : Nat) (hh : h < 24) (hm : m < 60) (hs : s < 60)
    (ht : c.temp_time = packTime h m s) (hd : c.set_digit ≠ DIGITS_LEFT) :
    c.handleButtonPlusPress = { c with temp_time := packTime h ((m + 1) % 60) s } := by
  unfold Clock.handleButtonPlusPress
  rw [set_temp_time_right c h m s 1 hh hm hs (by omega) ht hd]
  have : (((m : Int) + 60 + 1) % 60).toNat = (m + 1) % 60 := by omega
  rw [this]

theorem run_append (c : Clock) (l₁ l₂ : List Event) : run c (l₁ ++ l₂) = run (run c l₁) l₂ := by
  unfold run; exact List.foldl_append _ _ _ _

theorem run_cons (c : Clock) (e : Event) (l : List Event) : run c (e :: l) = run (step c e) l :=
  rfl

theorem run_nil (c : Clock) : run c [] = c := rfl

theorem run_plus_left (i : Nat) : ∀ (c : Clock) (h m s : Nat), h < 24 → m < 60 → s < 60 →
    c.temp_time = packTime h m s → c.set_digit = DIGITS_LEFT →
    run c (List.replicate i (Event.button BUTTON_PLUS))
      = { c with temp_time := packTime ((h + i) % 24) m s } := by
  induction i with
  | zero =>
    intro c h m s hh hm hs ht hd
    rw [List.replicate_zero, run_nil, Nat.add_zero, Nat.mod_eq_of_lt hh, ← ht]
  | succ i ih =>
    intro c h m s hh hm hs ht hd
    rw [List.replicate_succ, run_cons]
    have hp : step c (Event.button BUTTON_PLUS)
        = { c with temp_time := packTime ((h + 1) % 24) m s } := plus_left c h m s hh hm hs ht hd
    rw [hp, ih { c with temp_time := packTime ((h + 1) % 24) m s } ((h + 1) % 24) m s
      (Nat.mod_lt _ (by decide)) hm hs rfl hd]
    have : ((h + 1) % 24 + i) % 24 = (h + (i + 1)) % 24 := by omega
    rw [this]

theorem run_plus_right (j : Nat) : ∀ (c : Clock) (h m s : Nat), h < 24 → m < 60 → s < 60 →
    c.temp_time = packTime h m s → c.set_digit ≠ DIGITS_LEFT →
    run c (List.replicate j (Event.button BUTTON_PLUS))
      = { c with temp_time := packTime h ((m + j) % 60) s } := by
  induction j with
  | zero =>
    intro c h m s hh hm hs ht hd
    rw [List.replicate_zero, run_nil, Nat.add_zero, Nat.mod_eq_of_lt hm, ← ht]
  | succ j ih =>
    intro c h m s hh hm hs ht hd
    rw [List.replicate_succ, run_cons]
    have hp : step c (Event.button BUTTON_PLUS)
        = { c with temp_time := packTime h ((m + 1) % 60) s } := plus_right c h m s hh hm hs ht hd
    rw [hp, ih { c with temp_time := packTime h ((m + 1) % 60) s } h ((m + 1) % 60) s hh
      (Nat.mod_lt _ (by decide)) hs rfl hd]
    have : ((m + 1) % 60 + j) % 60 = (m + (j + 1)) % 60 := by omega
    rw [this]

theorem commit_to_time (c : Clock) (h m s : Nat) (hh : h < 24) (hm : m < 60) (hs : s < 60)
    (ht : c.temp_time = packTime h m s) (hp : c.time_to_set = TimePtr.time) :
    c.commit_temp_time = c.set_time h m s := by
  have d1 : c.temp_time >>> 12 = h := by rw [ht]; exact hoursOf_packTime h m s (by omega) (by omega)
  have d2 : (c.temp_time >>> 6) &&& 63 = m := by
    rw [ht]; exact minutesOf_packTime h m s (by omega) (by omega)
  have d3 : c.temp_time &&& 63 = s := by
    rw [ht]; exact secondsOf_packTime h m s (by omega) (by omega)
  have e1 : toUInt8 (toInt8 (h : Int)) = h := by unfold toUInt8 toInt8; omega
  have e2 : toUInt8 (toInt8 (m : Int)) = m := by unfold toUInt8 toInt8; omega
  have e3 : toUInt8 (toInt8 (s : Int)) = s := by unfold toUInt8 toInt8; omega
  simp only [Clock.commit_temp_time, d1, d2, d3, hp, if_true, e1, e2, e3]

theorem commit_to_alarm (c : Clock) (h m s : Nat) (hh : h < 24) (hm : m < 60) (hs : s < 60)
    (ht : c.temp_time = packTime h m s) (hp : c.time_to_set ≠ TimePtr.time) :
    c.commit_temp_time = c.set_alarm h m := by
  have d1 : c.temp_time >>> 12 = h := by rw [ht]; exact hoursOf_packTime h m s (by omega) (by omega)
  have d2 : (c.temp_time >>> 6) &&& 63 = m := by
    rw [ht]; exact minutesOf_packTime h m s (by omega) (by omega)
  have e1 : toUInt8 (toInt8 (h : Int)) = h := by unfold toUInt8 toInt8; omega
  have e2 : toUInt8 (toInt8 (m : Int)) = m := by unfold toUInt8 toInt8; omega
  simp only [Clock.commit_temp_time, d1, d2, hp, if_false, e1, e2]

theorem ok_menu_set (c : Clock) (h : c.state = STATE_MENU_SET) :
    c.handleButtonOkPress = { c with
      display_state := DIGITS_LEFT ||| POINT ||| DIGITS_RIGHT
      temp_time := c.time
      time_to_set := TimePtr.time
      state := STATE_SET_CLOCK } := by
  simp only [Clock.handleButtonOkPress, h, if_true]

theorem ok_set_left (c : Clock) (h : c.state = STATE_SET_CLOCK ∨ c.state = STATE_SET_ALARM)
    (hd : c.set_digit = DIGITS_LEFT) :
    c.handleButtonOkPress = { c with
      display_state := DIGITS_LEFT ||| POINT ||| DIGITS_RIGHT
      set_digit := DIGITS_RIGHT } := by
  rcases h with h | h <;> simp [Clock.handleButtonOkPress, h, hd] <;> decide

theorem ok_set_right (c : Clock) (h : c.state = STATE_SET_CLOCK ∨ c.state = STATE_SET_ALARM)
    (hd : c.set_digit = DIGITS_RIGHT) :
    c.handleButtonOkPress = { Clock.commit_temp_time { c with
        display_state := DIGITS_LEFT ||| POINT ||| DIGITS_RIGHT
        state := STATE_CLOCK } with
      set_digit := (Clock.commit_temp_time { c with
        display_state := DIGITS_LEFT ||| POINT ||| DIGITS_RIGHT
        state := STATE_CLOCK }).set_digit ^^^ (DIGITS_LEFT ||| DIGITS_RIGHT) } := by
  rcases h with h | h <;> simp [Clock.handleButtonOkPress, h, hd]

/-- C6: from `STATE_MENU_SET` with the focus on the hours and the clock time
h:m:s (h < 24, m < 60, s < 60), the events OK, PLUS x i, OK, PLUS x j, OK end
in `STATE_CLOCK` with the clock time ((h+i) mod 24):((m+j) mod 60):s and the
millisecond counter reseeded to that time. -/
theorem edit_clock_sequence (c : Clock) (h m s i j : Nat)
    (hstate : c.state = STATE_MENU_SET) (hfocus : c.set_digit = DIGITS_LEFT)
    (hh : h < 24) (hm : m < 60) (hs : s < 60) (htime : c.time = packTime h m s) :
    (run c (Event.button BUTTON_OK :: (List.replicate i (Event.button BUTTON_PLUS) ++
      Event.button BUTTON_OK :: (List.replicate j (Event.button BUTTON_PLUS) ++
      [Event.button BUTTON_OK])))).state = STATE_CLOCK ∧
    (run c (Event.button BUTTON_OK :: (List.replicate i (Event.button BUTTON_PLUS) ++
      Event.button BUTTON_OK :: (List.replicate j (Event.button BUTTON_PLUS) ++
      [Event.button BUTTON_OK])))).time = packTime ((h + i) % 24) ((m + j) % 60) s ∧
    (run c (Event.button BUTTON_OK :: (List.replicate i (Event.button BUTTON_PLUS) ++
      Event.button BUTTON_OK :: (List.replicate j (Event.button BUTTON_PLUS) ++
      [Event.button BUTTON_OK])))).timestamp
        = (((h + i) % 24) * 3600 + ((m + j) % 60) * 60 + s) * 1000 := by
  have hH : (h + i) % 24 < 24 := Nat.mod_lt _ (by decide)
  have hM : (m + j) % 60 < 60 := Nat.mod_lt _ (by decide)
  rw [run_cons, run_append, run_cons, run_append, run_cons, run_nil]
  -- OK in MENU_SET copies the clock time into the edit buffer
  have s1 : step c (Event.button BUTTON_OK) = c.handleButtonOkPress := rfl
  rw [s1, ok_menu_set c hstate]
  generalize hc1 : ({ c with
      display_state := DIGITS_LEFT ||| POINT ||| DIGITS_RIGHT
      temp_time := c.time
      time_to_set := TimePtr.time
      state := STATE_SET_CLOCK } : Clock) = c1
  have c1_state : c1.state = STATE_SET_CLOCK := by rw [← hc1]
  have c1_digit : c1.set_digit = DIGITS_LEFT := by rw [← hc1]; exact hfocus
  have c1_temp : c1.temp_time = packTime h m s := by rw [← hc1]; exact htime
  have c1_ptr : c1.time_to_set = TimePtr.time := by rw [← hc1]
  -- PLUS x i on the hours
  rw [run_plus_left i c1 h m s hh hm hs c1_temp c1_digit]
  -- OK moves the focus to the minutes
  generalize hc2 : ({ c1 with temp_time := packTime ((h + i) % 24) m s } : Clock) = c2
  have c2_state : c2.state = STATE_SET_CLOCK := by rw [← hc2]; exact c1_state
  have c2_digit : c2.set_digit = DIGITS_LEFT := by rw [← hc2]; exact c1_digit
  have c2_temp : c2.temp_time = packTime ((h + i) % 24) m s := by rw [← hc2]
  have c2_ptr : c2.time_to_set = TimePtr.time := by rw [← hc2]; exact c1_ptr
  have s2 : step c2 (Event.button BUTTON_OK) = c2.handleButtonOkPress := rfl
  rw [s2, ok_set_left c2 (Or.inl c2_state) c2_digit]
  -- PLUS x j on the minutes
  generalize hc2' : ({ c2 with
      display_state := DIGITS_LEFT ||| POINT ||| DIGITS_RIGHT
      set_digit := DIGITS_RIGHT } : Clock) = c2'
  have c2'_state : c2'.state = STATE_SET_CLOCK := by rw [← hc2']; exact c2_state
  have c2'_digit : c2'.set_digit = DIGITS_RIGHT := by rw [← hc2']
  have c2'_temp : c2'.temp_time = packTime ((h + i) % 24) m s := by rw [← hc2']; exact c2_temp
  have c2'_ptr : c2'.time_to_set = TimePtr.time := by rw [← hc2']; exact c2_ptr
  rw [run_plus_right j c2' ((h + i) % 24) m s hH hm hs c2'_temp (by rw [c2'_digit]; decide)]
  generalize hc3 : ({ c2' with
      temp_time := packTime ((h + i) % 24) ((m + j) % 60) s } : Clock) = c3
  have c3_state : c3.state = STATE_SET_CLOCK := by rw [← hc3]; exact c2'_state
  have c3_digit : c3.set_digit = DIGITS_RIGHT := by rw [← hc3]; exact c2'_digit
  have c3_temp : c3.temp_time = packTime ((h + i) % 24) ((m + j) % 60) s := by rw [← hc3]
  have c3_ptr : c3.time_to_set = TimePtr.time := by rw [← hc3]; exact c2'_ptr
  -- OK commits the edit buffer to the clock
  have s3 : step c3 (Event.button BUTTON_OK) = c3.handleButtonOkPress := rfl
  rw [s3, ok_set_right c3 (Or.inl c3_state) c3_digit,
    commit_to_time ({ c3 with
      display_state := DIGITS_LEFT ||| POINT ||| DIGITS_RIGHT
      state := STATE_CLOCK }) ((h + i) % 24) ((m + j) % 60) s hH hM hs c3_temp c3_ptr]
  exact ⟨rfl, by simp [Clock.set_time, packTime], rfl⟩

/-- C6 at 22:58:07 with i = 3 and j = 5. -/
theorem edit_clock_sequence_witness :
    (run ({ Clock.initial 0 0 with state := STATE_MENU_SET, time := packTime 22 58 7 })
      (Event.button BUTTON_OK :: (List.replicate 3 (Event.button BUTTON_PLUS) ++
      Event.button BUTTON_OK :: (List.replicate 5 (Event.button BUTTON_PLUS) ++
      [Event.button BUTTON_OK])))).state = STATE_CLOCK ∧
    (run ({ Clock.initial 0 0 with state := STATE_MENU_SET, time := packTime 22 58 7 })
      (Event.button BUTTON_OK :: (List.replicate 3 (Event.button BUTTON_PLUS) ++
      Event.button BUTTON_OK :: (List.replicate 5 (Event.button BUTTON_PLUS) ++
      [Event.button BUTTON_OK])))).time = packTime ((22 + 3) % 24) ((58 + 5) % 60) 7 ∧
    (run ({ Clock.initial 0 0 with state := STATE_MENU_SET, time := packTime 22 58 7 })
      (Event.button BUTTON_OK :: (List.replicate 3 (Event.button BUTTON_PLUS) ++
      Event.button BUTTON_OK :: (List.replicate 5 (Event.button BUTTON_PLUS) ++
      [Event.button BUTTON_OK])))).timestamp
        = (((22 + 3) % 24) * 3600 + ((58 + 5) % 60) * 60 + 7) * 1000 :=
  edit_clock_sequence ({ Clock.initial 0 0 with state := STATE_MENU_SET, time := packTime 22 58 7 })
    22 58 7 3 5 rfl rfl (by decide) (by decide) (by decide) rfl

/-! ## Invariant of the reachable states -/

theorem validTime_packTime (h m s : Nat) (hh : h < 24) (hm : m < 60) (hs : s < 60) :
    ValidTime (packTime h m s) := by
  unfold ValidTime
  rw [hoursOf_packTime h m s (by omega) (by omega), minutesOf_packTime h m s (by omega) (by omega),
    secondsOf_packTime h m s (by omega) (by omega)]
  exact ⟨hh, hm, hs⟩

theorem Inv.time_valid {c : Clock} (hi : Inv c) : ValidTime c.time := by
  rw [hi.time_eq]
  have := hi.timestamp_lt
  exact validTime_packTime _ _ _ (by omega) (by omega) (by omega)

theorem inv_set_time (c : Clock) (h m s : Nat) (hh : h < 24) (hm : m < 60) (hs : s < 60)
    (hi : Inv c) : Inv (c.set_time h m s) where
  timestamp_lt := by
    show (h * 3600 + m * 60 + s) * 1000 < 86400000
    omega
  time_eq := by
    rw [set_time_time]
    show packTime h m s = packTime ((h * 3600 + m * 60 + s) * 1000 / 3600000)
      ((h * 3600 + m * 60 + s) * 1000 % 3600000 / 60000)
      ((h * 3600 + m * 60 + s) * 1000 % 60000 / 1000)
    have e1 : (h * 3600 + m * 60 + s) * 1000 / 3600000 = h := by omega
    have e2 : (h * 3600 + m * 60 + s) * 1000 % 3600000 / 60000 = m := by omega
    have e3 : (h * 3600 + m * 60 + s) * 1000 % 60000 / 1000 = s := by omega
    rw [e1, e2, e3]
  alarm_valid := hi.alarm_valid
  temp_valid := hi.temp_valid
  set_clock_ptr := hi.set_clock_ptr
  set_alarm_ptr := hi.set_alarm_ptr
  digit := hi.digit

theorem inv_set_alarm (c : Clock) (h m : Nat) (hh : h < 24) (hm : m < 60)
    (hi : Inv c) : Inv (c.set_alarm h m) where
  timestamp_lt := hi.timestamp_lt
  time_eq := hi.time_eq
  alarm_valid := by
    rw [set_alarm_alarm]; exact validTime_packTime h m 0 hh hm (by decide)
  temp_valid := hi.temp_valid
  set_clock_ptr := hi.set_clock_ptr
  set_alarm_ptr := hi.set_alarm_ptr
  digit := hi.digit

theorem inv_initial (a b : Nat) : Inv (Clock.initial a b) where
  timestamp_lt := by show (0 : Nat) < 86400000; decide
  time_eq := by
    show (0 : Nat) = packTime (0 / 3600000) (0 % 3600000 / 60000) (0 % 60000 / 1000)
    decide
  alarm_valid := validTime_packTime 0 0 0 (by decide) (by decide) (by decide)
  temp_valid := validTime_packTime 0 0 0 (by decide) (by decide) (by decide)
  set_clock_ptr := by
    intro h
    have h' : (0 : Nat) = 3 := h
    exact absurd h' (by decide)
  set_alarm_ptr := by
    intro h
    have h' : (0 : Nat) = 4 := h
    exact absurd h' (by decide)
  digit := Or.inl rfl

theorem inv_setup {c : Clock} (hs : Setup c) : Inv c := by
  induction hs with
  | initial a b _ _ => exact inv_initial a b
  | set_time h m s _ hh hm hs ih => exact inv_set_time _ h m s hh hm hs ih
  | set_alarm h m _ hh hm ih => exact inv_set_alarm _ h m hh hm ih

theorem check_alarm_frame (c : Clock) :
    c.check_alarm.time = c.time ∧ c.check_alarm.timestamp = c.timestamp ∧
    c.check_alarm.alarm = c.alarm ∧ c.check_alarm.alarm_enabled = c.alarm_enabled ∧
    c.check_alarm.temp_time = c.temp_time ∧ c.check_alarm.time_to_set = c.time_to_set ∧
    c.check_alarm.set_digit = c.set_digit := by
  unfold Clock.check_alarm
  split_ifs <;> exact ⟨rfl, rfl, rfl, rfl, rfl, rfl, rfl⟩

theorem check_alarm_state_cases (c : Clock) :
    c.check_alarm.state = c.state ∨ c.check_alarm.state = STATE_ALARM := by
  unfold Clock.check_alarm
  split_ifs
  · exact Or.inr rfl
  · exact Or.inl rfl

theorem show_select_state_cases (c : Clock) :
    c.show_select.1.state = c.state ∨ c.show_select.1.state = STATE_CLOCK := by
  simp only [Clock.show_select]
  split_ifs <;> first | exact Or.inl rfl | exact Or.inr rfl

theorem show_render_state_cases (c : Clock) (p : TimePtr) :
    (c.show_render p).state = c.state ∨ (c.show_render p).state = STATE_CLOCK := by
  simp only [Clock.show_render]
  split_ifs <;> first | exact Or.inl rfl | exact Or.inr rfl

theorem show_state_cases (c : Clock) :
    c.show.state = c.state ∨ c.show.state = STATE_CLOCK := by
  unfold Clock.show
  rcases show_render_state_cases c.show_select.1 c.show_select.2 with h | h
  · rcases show_select_state_cases c with h' | h'
    · exact Or.inl (h.trans h')
    · exact Or.inr (h.trans h')
  · exact Or.inr h

theorem onTimer_frame (c : Clock) :
    (onTimer c).time = c.update_time.time ∧ (onTimer c).timestamp = c.update_time.timestamp ∧
    (onTimer c).alarm = c.alarm ∧ (onTimer c).alarm_enabled = c.alarm_enabled ∧
    (onTimer c).temp_time = c.temp_time ∧ (onTimer c).time_to_set = c.time_to_set ∧
    (onTimer c).set_digit = c.set_digit := by
  have a := update_time_frame c
  have b := check_alarm_frame c.update_time
  have d := show_frame c.update_time.check_alarm
  unfold onTimer
  exact ⟨d.1.trans b.1, d.2.1.trans b.2.1, (d.2.2.1.trans b.2.2.1).trans a.2.1,
    (d.2.2.2.1.trans b.2.2.2.1).trans a.2.2.1,
    (d.2.2.2.2.1.trans b.2.2.2.2.1).trans a.2.2.2.2.2.2.1,
    (d.2.2.2.2.2.1.trans b.2.2.2.2.2.1).trans a.2.2.2.2.2.2.2.1,
    (d.2.2.2.2.2.2.trans b.2.2.2.2.2.2).trans a.2.2.2.2.2.1⟩

theorem onTimer_state_cases (c : Clock) :
    (onTimer c).state = c.state ∨ (onTimer c).state = STATE_CLOCK ∨
      (onTimer c).state = STATE_ALARM := by
  unfold onTimer
  rcases show_state_cases c.update_time.check_alarm with h | h
  · rcases check_alarm_state_cases c.update_time with h' | h'
    · exact Or.inl ((h.trans h').trans (update_time_frame c).1)
    · exact Or.inr (Or.inr (h.trans h'))
  · exact Or.inr (Or.inl h)

theorem inv_onTimer (c : Clock) (hi : Inv c) : Inv (onTimer c) := by
  have f := onTimer_frame c
  have hlt : c.update_time.timestamp < 86400000 := by rw [update_time_timestamp]; omega
  refine ⟨?_, ?_, ?_, ?_, ?_, ?_, by rw [f.2.2.2.2.2.2]; exact hi.digit⟩
  · rw [f.2.1]; exact hlt
  · rw [f.1, f.2.1]; exact update_time_time c
  · rw [f.2.2.1]; exact hi.alarm_valid
  · rw [f.2.2.2.2.1]; exact hi.temp_valid
  · intro h
    rw [f.2.2.2.2.2.1]
    rcases onTimer_state_cases c with h' | h' | h'
    · exact hi.set_clock_ptr (h'.symm.trans h)
    · exact absurd (h'.symm.trans h) (by decide)
    · exact absurd (h'.symm.trans h) (by decide)
  · intro h
    rw [f.2.2.2.2.2.1]
    rcases onTimer_state_cases c with h' | h' | h'
    · exact hi.set_alarm_ptr (h'.symm.trans h)
    · exact absurd (h'.symm.trans h) (by decide)
    · exact absurd (h'.symm.trans h) (by decide)

theorem menu_frame (c : Clock) :
    c.handleButtonMenuPress.time = c.time ∧ c.handleButtonMenuPress.timestamp = c.timestamp ∧
    c.handleButtonMenuPress.alarm = c.alarm ∧
    c.handleButtonMenuPress.alarm_enabled = c.alarm_enabled ∧
    c.handleButtonMenuPress.temp_time = c.temp_time ∧
    c.handleButtonMenuPress.time_to_set = c.time_to_set ∧
    (c.handleButtonMenuPress.set_digit = c.set_digit ∨
      c.handleButtonMenuPress.set_digit = DIGITS_LEFT) := by
  simp only [Clock.handleButtonMenuPress]
  split_ifs
  · exact ⟨rfl, rfl, rfl, rfl, rfl, rfl, Or.inl rfl⟩
  · exact ⟨rfl, rfl, rfl, rfl, rfl, rfl, Or.inr rfl⟩
  · exact ⟨rfl, rfl, rfl, rfl, rfl, rfl, Or.inl rfl⟩

theorem menu_state_not_edit (c : Clock) :
    c.handleButtonMenuPress.state ≠ STATE_SET_CLOCK ∧
    c.handleButtonMenuPress.state ≠ STATE_SET_ALARM := by
  simp only [Clock.handleButtonMenuPress]
  split_ifs with h1 h2
  · have : (c.state + 1) % 3 < 3 := Nat.mod_lt _ (by decide)
    refine ⟨?_, ?_⟩
    · show (c.state + 1) % 3 ≠ 3
      omega
    · show (c.state + 1) % 3 ≠ 4
      omega
  · refine ⟨?_, ?_⟩
    · show (0 : Nat) ≠ 3
      decide
    · show (0 : Nat) ≠ 4
      decide
  · constructor
    · show c.state ≠ 3
      intro h; exact h2 (Or.inl h)
    · show c.state ≠ 4
      intro h; exact h2 (Or.inr h)

theorem inv_menu (c : Clock) (hi : Inv c) : Inv c.handleButtonMenuPress := by
  have f := menu_frame c
  have n := menu_state_not_edit c
  refine ⟨?_, ?_, ?_, ?_, ?_, ?_, ?_⟩
  · rw [f.2.1]; exact hi.timestamp_lt
  · rw [f.1, f.2.1]; exact hi.time_eq
  · rw [f.2.2.1]; exact hi.alarm_valid
  · rw [f.2.2.2.2.1]; exact hi.temp_valid
  · intro h; exact absurd h n.1
  · intro h; exact absurd h n.2
  · rcases f.2.2.2.2.2.2 with h | h
    · rw [h]; exact hi.digit
    · exact Or.inl h

theorem validTime_unpack {t : Nat} (hv : ValidTime t) :
    ∃ h m s, h < 24 ∧ m < 60 ∧ s < 60 ∧ t = packTime h m s :=
  ⟨hoursOf t, minutesOf t, secondsOf t, hv.1, hv.2.1, hv.2.2, (packTime_fields t).symm⟩

theorem inv_set_temp_time (c : Clock) (o : Int) (ho : o = 1 ∨ o = -1) (hi : Inv c) :
    Inv (c.set_temp_time o) := by
  obtain ⟨h, m, s, hh, hm, hs, ht⟩ := validTime_unpack hi.temp_valid
  by_cases hd : c.set_digit = DIGITS_LEFT
  · rw [set_temp_time_left c h m s o hh hm hs (by omega) ht hd]
    exact ⟨hi.timestamp_lt, hi.time_eq, hi.alarm_valid,
      validTime_packTime _ m s (by omega) hm hs, hi.set_clock_ptr, hi.set_alarm_ptr, hi.digit⟩
  · rw [set_temp_time_right c h m s o hh hm hs (by omega) ht hd]
    exact ⟨hi.timestamp_lt, hi.time_eq, hi.alarm_valid,
      validTime_packTime h _ s hh (by omega) hs, hi.set_clock_ptr, hi.set_alarm_ptr, hi.digit⟩

theorem ok_menu_alarm_on (c : Clock) (h : c.state = STATE_MENU_ALARM)
    (he : c.alarm_enabled = true) :
    c.handleButtonOkPress = { c with
      display_state := DIGITS_LEFT ||| POINT ||| DIGITS_RIGHT
      temp_time := c.alarm
      time_to_set := TimePtr.alarm
      state := STATE_SET_ALARM } := by
  simp [Clock.handleButtonOkPress, h, he]

theorem ok_menu_alarm_off (c : Clock) (h : c.state = STATE_MENU_ALARM)
    (he : c.alarm_enabled = false) :
    c.handleButtonOkPress = { c with
      display_state := DIGITS_LEFT ||| POINT ||| DIGITS_RIGHT
      temp_time := c.alarm
      time_to_set := TimePtr.alarm
      state := STATE_ALARM_OFF
      alarm_off_counter := 6 } := by
  simp [Clock.handleButtonOkPress, h, he]

theorem ok_alarm (c : Clock) (h : c.state = STATE_ALARM) :
    c.handleButtonOkPress = { c with
      display_state := DIGITS_LEFT ||| POINT ||| DIGITS_RIGHT
      state := STATE_CLOCK } := by
  simp [Clock.handleButtonOkPress, h]

theorem ok_other (c : Clock) (h1 : c.state ≠ STATE_MENU_SET) (h2 : c.state ≠ STATE_MENU_ALARM)
    (h3 : ¬(c.state = STATE_SET_CLOCK ∨ c.state = STATE_SET_ALARM)) (h4 : c.state ≠ STATE_ALARM) :
    c.handleButtonOkPress = { c with
      display_state := DIGITS_LEFT ||| POINT ||| DIGITS_RIGHT } := by
  simp only [Clock.handleButtonOkPress, h1, h2, h3, h4, if_false]

theorem ok_commit_clock (c : Clock) (hi : Inv c) (hstate : c.state = STATE_SET_CLOCK)
    (hd : c.set_digit = DIGITS_RIGHT) :
    c.handleButtonOkPress = { Clock.set_time { c with
        display_state := DIGITS_LEFT ||| POINT ||| DIGITS_RIGHT
        state := STATE_CLOCK } (hoursOf c.temp_time) (minutesOf c.temp_time)
          (secondsOf c.temp_time) with
      set_digit := DIGITS_LEFT } := by
  rw [ok_set_right c (Or.inl hstate) hd,
    commit_to_time ({ c with
      display_state := DIGITS_LEFT ||| POINT ||| DIGITS_RIGHT
      state := STATE_CLOCK }) (hoursOf c.temp_time) (minutesOf c.temp_time)
      (secondsOf c.temp_time) hi.temp_valid.1 hi.temp_valid.2.1 hi.temp_valid.2.2
      (packTime_fields c.temp_time).symm (hi.set_clock_ptr hstate)]
  simp [Clock.set_time, hd]
  decide

theorem ok_commit_alarm (c : Clock) (hi : Inv c) (hstate : c.state = STATE_SET_ALARM)
    (hd : c.set_digit = DIGITS_RIGHT) :
    c.handleButtonOkPress = { Clock.set_alarm { c with
        display_state := DIGITS_LEFT ||| POINT ||| DIGITS_RIGHT
        state := STATE_CLOCK } (hoursOf c.temp_time) (minutesOf c.temp_time) with
      set_digit := DIGITS_LEFT } := by
  rw [ok_set_right c (Or.inr hstate) hd,
    commit_to_alarm ({ c with
      display_state := DIGITS_LEFT ||| POINT ||| DIGITS_RIGHT
      state := STATE_CLOCK }) (hoursOf c.temp_time) (minutesOf c.temp_time)
      (secondsOf c.temp_time) hi.temp_valid.1 hi.temp_valid.2.1 hi.temp_valid.2.2
      (packTime_fields c.temp_time).symm
      (by rw [show ({ c with
        display_state := DIGITS_LEFT ||| POINT ||| DIGITS_RIGHT
        state := STATE_CLOCK } : Clock).time_to_set = c.time_to_set from rfl,
        hi.set_alarm_ptr hstate]; decide)]
  simp [Clock.set_alarm, hd]
  decide

theorem inv_ok (c : Clock) (hi : Inv c) : Inv c.handleButtonOkPress := by
  by_cases h1 : c.state = STATE_MENU_SET
  · rw [ok_menu_set c h1]
    exact ⟨hi.timestamp_lt, hi.time_eq, hi.alarm_valid, hi.time_valid, fun _ => rfl,
      fun h => absurd h (by decide : (3 : Nat) ≠ 4), hi.digit⟩
  by_cases h2 : c.state = STATE_MENU_ALARM
  · cases he : c.alarm_enabled
    · rw [ok_menu_alarm_off c h2 he]
      exact ⟨hi.timestamp_lt, hi.time_eq, hi.alarm_valid, hi.alarm_valid,
        fun h => absurd h (by decide : (5 : Nat) ≠ 3), fun _ => rfl, hi.digit⟩
    · rw [ok_menu_alarm_on c h2 he]
      exact ⟨hi.timestamp_lt, hi.time_eq, hi.alarm_valid, hi.alarm_valid,
        fun h => absurd h (by decide : (4 : Nat) ≠ 3), fun _ => rfl, hi.digit⟩
  by_cases h3 : c.state = STATE_SET_CLOCK ∨ c.state = STATE_SET_ALARM
  · rcases hi.digit with hd | hd
    · rw [ok_set_left c h3 hd]
      exact ⟨hi.timestamp_lt, hi.time_eq, hi.alarm_valid, hi.temp_valid, hi.set_clock_ptr,
        hi.set_alarm_ptr, Or.inr rfl⟩
    · have hbase : Inv ({ c with
          display_state := DIGITS_LEFT ||| POINT ||| DIGITS_RIGHT
          state := STATE_CLOCK }) :=
        ⟨hi.timestamp_lt, hi.time_eq, hi.alarm_valid, hi.temp_valid,
          fun h => absurd h (by decide : (0 : Nat) ≠ 3),
          fun h => absurd h (by decide : (0 : Nat) ≠ 4), hi.digit⟩
      rcases h3 with h3 | h3
      · rw [ok_commit_clock c hi h3 hd]
        have hs := inv_set_time _ (hoursOf c.temp_time) (minutesOf c.temp_time)
          (secondsOf c.temp_time) hi.temp_valid.1 hi.temp_valid.2.1 hi.temp_valid.2.2 hbase
        exact ⟨hs.timestamp_lt, hs.time_eq, hs.alarm_valid, hs.temp_valid, hs.set_clock_ptr,
          hs.set_alarm_ptr, Or.inl rfl⟩
      · rw [ok_commit_alarm c hi h3 hd]
        have hs := inv_set_alarm _ (hoursOf c.temp_time) (minutesOf c.temp_time)
          hi.temp_valid.1 hi.temp_valid.2.1 hbase
        exact ⟨hs.timestamp_lt, hs.time_eq, hs.alarm_valid, hs.temp_valid, hs.set_clock_ptr,
          hs.set_alarm_ptr, Or.inl rfl⟩
  by_cases h4 : c.state = STATE_ALARM
  · rw [ok_alarm c h4]
    exact ⟨hi.timestamp_lt, hi.time_eq, hi.alarm_valid, hi.temp_valid,
      fun h => absurd h (by decide : (0 : Nat) ≠ 3),
      fun h => absurd h (by decide : (0 : Nat) ≠ 4), hi.digit⟩
  · rw [ok_other c h1 h2 h3 h4]
    exact ⟨hi.timestamp_lt, hi.time_eq, hi.alarm_valid, hi.temp_valid, hi.set_clock_ptr,
      hi.set_alarm_ptr, hi.digit⟩

theorem inv_step (c : Clock) (e : Event) (hi : Inv c) : Inv (step c e) := by
  cases e with
  | timer => exact inv_onTimer c hi
  | button b =>
    cases b with
    | BUTTON_MENU => exact inv_menu c hi
    | BUTTON_PLUS => exact inv_set_temp_time c 1 (Or.inl rfl) hi
    | BUTTON_MINUS => exact inv_set_temp_time c (-1) (Or.inr rfl) hi
    | BUTTON_OK => exact inv_ok c hi
  | switchAlarm b =>
    exact ⟨hi.timestamp_lt, hi.time_eq, hi.alarm_valid, hi.temp_valid, hi.set_clock_ptr,
      hi.set_alarm_ptr, hi.digit⟩

theorem inv_run (events : List Event) : ∀ c : Clock, Inv c → Inv (run c events) := by
  induction events with
  | nil => intro c hi; exact hi
  | cons e l ih => intro c hi; rw [run_cons]; exact ih _ (inv_step c e hi)

theorem inv_reachable {c : Clock} (hr : Reachable c) : Inv c := by
  obtain ⟨c₀, events, hs, rfl⟩ := hr
  exact inv_run events c₀ (inv_setup hs)

/-! ## The commit target -/

/-- C8: in every reachable state with the focus on the minutes, OK in
`STATE_SET_ALARM` sets the alarm to the edit buffer's hours:minutes with
seconds 0 and leaves the clock time and the millisecond counter unchanged, and
OK in `STATE_SET_CLOCK` sets the clock time and the millisecond counter from
the edit buffer and leaves the alarm unchanged; both end in `STATE_CLOCK`. -/
theorem commit_target_matches_mode (c : Clock) (hr : Reachable c)
    (hfocus : c.set_digit = DIGITS_RIGHT) :
    (c.state = STATE_SET_ALARM →
      c.handleButtonOkPress.alarm = packTime (hoursOf c.temp_time) (minutesOf c.temp_time) 0 ∧
      c.handleButtonOkPress.time = c.time ∧
      c.handleButtonOkPress.timestamp = c.timestamp ∧
      c.handleButtonOkPress.state = STATE_CLOCK) ∧
    (c.state = STATE_SET_CLOCK →
      c.handleButtonOkPress.time = c.temp_time ∧
      c.handleButtonOkPress.timestamp =
        (hoursOf c.temp_time * 3600 + minutesOf c.temp_time * 60 + secondsOf c.temp_time) * 1000 ∧
      c.handleButtonOkPress.alarm = c.alarm ∧
      c.handleButtonOkPress.state = STATE_CLOCK) := by
  have hi := inv_reachable hr
  constructor
  · intro hstate
    rw [ok_commit_alarm c hi hstate hfocus]
    exact ⟨by simp [Clock.set_alarm, packTime], rfl, rfl, rfl⟩
  · intro hstate
    rw [ok_commit_clock c hi hstate hfocus]
    refine ⟨?_, rfl, rfl, rfl⟩
    have := set_time_time ({ c with
        display_state := DIGITS_LEFT ||| POINT ||| DIGITS_RIGHT
        state := STATE_CLOCK }) (hoursOf c.temp_time) (minutesOf c.temp_time)
          (secondsOf c.temp_time)
    rw [packTime_fields] at this
    exact this

/-- C8 on the state reached by switch on, MENU, MENU, OK, PLUS, OK, PLUS, PLUS. -/
theorem commit_target_matches_mode_witness :
    (run (Clock.initial 0 0)
      [Event.switchAlarm true, Event.button BUTTON_MENU, Event.button BUTTON_MENU,
        Event.button BUTTON_OK, Event.button BUTTON_PLUS, Event.button BUTTON_OK,
        Event.button BUTTON_PLUS, Event.button BUTTON_PLUS]).handleButtonOkPress.alarm
      = packTime 1 2 0 :=
  ((commit_target_matches_mode
    (run (Clock.initial 0 0)
      [Event.switchAlarm true, Event.button BUTTON_MENU, Event.button BUTTON_MENU,
        Event.button BUTTON_OK, Event.button BUTTON_PLUS, Event.button BUTTON_OK,
        Event.button BUTTON_PLUS, Event.button BUTTON_PLUS])
    ⟨Clock.initial 0 0, _, Setup.initial 0 0 (by decide) (by decide), rfl⟩
    (by decide)).1 (by decide)).1

/-! ## Adjusting a field of the edit buffer -/

/-- C11 (the code at the failing inputs): on the edit buffer 00:00:00 with the
focus on the hours, `set_temp_time(-25)` leaves the hours field 1048575
instead of (0 - 25) mod 24 = 23; with the focus on the minutes,
`set_temp_time(-61)` leaves the minutes field 63 instead of
(0 - 61) mod 60 = 59 and also overwrites the hours field. -/
theorem set_temp_time_below_modulus :
    hoursOf (({ Clock.initial 0 0 with temp_time := packTime 0 0 0, set_digit := DIGITS_LEFT
      }).set_temp_time (-25)).temp_time = 1048575 ∧
    ¬ (hoursOf (({ Clock.initial 0 0 with temp_time := packTime 0 0 0, set_digit := DIGITS_LEFT
      }).set_temp_time (-25)).temp_time < 24) ∧
    minutesOf (({ Clock.initial 0 0 with temp_time := packTime 0 0 0, set_digit := DIGITS_RIGHT
      }).set_temp_time (-61)).temp_time = 63 ∧
    hoursOf (({ Clock.initial 0 0 with temp_time := packTime 0 0 0, set_digit := DIGITS_RIGHT
      }).set_temp_time (-61)).temp_time = 1048575 := by
  decide

theorem iterate_plus_left (i : Nat) : ∀ (c : Clock) (h m s : Nat), h < 24 → m < 60 → s < 60 →
    c.temp_time = packTime h m s → c.set_digit = DIGITS_LEFT →
    (fun x : Clock => x.set_temp_time 1)^[i] c
      = { c with temp_time := packTime ((h + i) % 24) m s } := by
  induction i with
  | zero =>
    intro c h m s hh hm hs ht hd
    rw [Function.iterate_zero, id, Nat.add_zero, Nat.mod_eq_of_lt hh, ← ht]
  | succ i ih =>
    intro c h m s hh hm hs ht hd
    rw [Function.iterate_succ_apply]
    have hp : c.set_temp_time 1
        = { c with temp_time := packTime ((h + 1) % 24) m s } := plus_left c h m s hh hm hs ht hd
    rw [hp, ih { c with temp_time := packTime ((h + 1) % 24) m s } ((h + 1) % 24) m s
      (Nat.mod_lt _ (by decide)) hm hs rfl hd]
    have : ((h + 1) % 24 + i) % 24 = (h + (i + 1)) % 24 := by omega
    rw [this]

theorem iterate_plus_right (j : Nat) : ∀ (c : Clock) (h m s : Nat), h < 24 → m < 60 → s < 60 →
    c.temp_time = packTime h m s → c.set_digit ≠ DIGITS_LEFT →
    (fun x : Clock => x.set_temp_time 1)^[j] c
      = { c with temp_time := packTime h ((m + j) % 60) s } := by
  induction j with
  | zero =>
    intro c h m s hh hm hs ht hd
    rw [Function.iterate_zero, id, Nat.add_zero, Nat.mod_eq_of_lt hm, ← ht]
  | succ j ih =>
    intro c h m s hh hm hs ht hd
    rw [Function.iterate_succ_apply]
    have hp : c.set_temp_time 1
        = { c with temp_time := packTime h ((m + 1) % 60) s } := plus_right c h m s hh hm hs ht hd
    rw [hp, ih { c with temp_time := packTime h ((m + 1) % 60) s } h ((m + 1) % 60) s hh
      (Nat.mod_lt _ (by decide)) hs rfl hd]
    have : ((m + 1) % 60 + j) % 60 = (m + (j + 1)) % 60 := by omega
    rw [this]

/-- C12: on an edit buffer h:m:s with valid fields, `set_temp_time(+1)` with
the focus on the hours gives ((h+1) mod 24):m:s and applied 24 times gives the
original object back; with the focus on the minutes it gives
h:((m+1) mod 60):s and applied 60 times gives the original object back.  A
single application thus leaves the seconds and the other field unchanged. -/
theorem set_temp_time_plus_cycles (c : Clock) (h m s : Nat)
    (hh : h < 24) (hm : m < 60) (hs : s < 60) (ht : c.temp_time = packTime h m s) :
    (c.set_digit = DIGITS_LEFT →
      (c.set_temp_time 1).temp_time = packTime ((h + 1) % 24) m s ∧
      hoursOf (c.set_temp_time 1).temp_time = (h + 1) % 24 ∧
      minutesOf (c.set_temp_time 1).temp_time = m ∧
      secondsOf (c.set_temp_time 1).temp_time = s ∧
      (fun x : Clock => x.set_temp_time 1)^[24] c = c) ∧
    (c.set_digit = DIGITS_RIGHT →
      (c.set_temp_time 1).temp_time = packTime h ((m + 1) % 60) s ∧
      hoursOf (c.set_temp_time 1).temp_time = h ∧
      minutesOf (c.set_temp_time 1).temp_time = (m + 1) % 60 ∧
      secondsOf (c.set_temp_time 1).temp_time = s ∧
      (fun x : Clock => x.set_temp_time 1)^[60] c = c) := by
  constructor
  · intro hd
    have h1 : (c.set_temp_time 1).temp_time = packTime ((h + 1) % 24) m s := by
      have := plus_left c h m s hh hm hs ht hd
      unfold Clock.handleButtonPlusPress at this
      rw [this]
    have hH : (h + 1) % 24 < 24 := Nat.mod_lt _ (by decide)
    refine ⟨h1, ?_, ?_, ?_, ?_⟩
    · rw [h1]; exact hoursOf_packTime _ _ _ (by omega) (by omega)
    · rw [h1]; exact minutesOf_packTime _ _ _ (by omega) (by omega)
    · rw [h1]; exact secondsOf_packTime _ _ _ (by omega) (by omega)
    · rw [iterate_plus_left 24 c h m s hh hm hs ht hd]
      have : (h + 24) % 24 = h := by omega
      rw [this, ← ht]
  · intro hd
    have hd' : c.set_digit ≠ DIGITS_LEFT := by rw [hd]; decide
    have h1 : (c.set_temp_time 1).temp_time = packTime h ((m + 1) % 60) s := by
      have := plus_right c h m s hh hm hs ht hd'
      unfold Clock.handleButtonPlusPress at this
      rw [this]
    have hM : (m + 1) % 60 < 60 := Nat.mod_lt _ (by decide)
    refine ⟨h1, ?_, ?_, ?_, ?_⟩
    · rw [h1]; exact hoursOf_packTime _ _ _ (by omega) (by omega)
    · rw [h1]; exact minutesOf_packTime _ _ _ (by omega) (by omega)
    · rw [h1]; exact secondsOf_packTime _ _ _ (by omega) (by omega)
    · rw [iterate_plus_right 60 c h m s hh hm hs ht hd']
      have : (m + 60) % 60 = m := by omega
      rw [this, ← ht]

/-- C12 on the edit buffer 23:59:30 with the focus on the hours. -/
theorem set_temp_time_plus_cycles_witness :
    (fun x : Clock => x.set_temp_time 1)^[24]
      ({ Clock.initial 0 0 with temp_time := packTime 23 59 30 })
      = { Clock.initial 0 0 with temp_time := packTime 23 59 30 } :=
  ((set_temp_time_plus_cycles ({ Clock.initial 0 0 with temp_time := packTime 23 59 30 })
    23 59 30 (by decide) (by decide) (by decide) rfl).1 rfl).2.2.2.2

/-! ## The MENU cycle -/

/-- C17: MENU in `STATE_CLOCK` yields `STATE_MENU_SET`, in `STATE_MENU_SET`
yields `STATE_MENU_ALARM` and in `STATE_MENU_ALARM` yields `STATE_CLOCK`, so
three presses from `STATE_CLOCK` return to `STATE_CLOCK`; each press leaves
the clock time, the alarm time and `alarm_enabled` unchanged and sets
`display_state` to all-on. -/
theorem menu_cycles_top_level (c : Clock)
    (hstate : c.state = STATE_CLOCK ∨ c.state = STATE_MENU_SET ∨ c.state = STATE_MENU_ALARM) :
    (c.state = STATE_CLOCK → c.handleButtonMenuPress.state = STATE_MENU_SET) ∧
    (c.state = STATE_MENU_SET → c.handleButtonMenuPress.state = STATE_MENU_ALARM) ∧
    (c.state = STATE_MENU_ALARM → c.handleButtonMenuPress.state = STATE_CLOCK) ∧
    (c.state = STATE_CLOCK →
      c.handleButtonMenuPress.handleButtonMenuPress.handleButtonMenuPress.state = STATE_CLOCK) ∧
    c.handleButtonMenuPress.time = c.time ∧
    c.handleButtonMenuPress.timestamp = c.timestamp ∧
    c.handleButtonMenuPress.alarm = c.alarm ∧
    c.handleButtonMenuPress.alarm_enabled = c.alarm_enabled ∧
    c.handleButtonMenuPress.display_state = DIGITS_LEFT ||| POINT ||| DIGITS_RIGHT := by
  rcases hstate with h | h | h <;> simp [Clock.handleButtonMenuPress, h]

/-- C17 from the initial state. -/
theorem menu_cycles_top_level_witness :
    (Clock.initial 0 0).handleButtonMenuPress.handleButtonMenuPress.handleButtonMenuPress.state
      = STATE_CLOCK :=
  (menu_cycles_top_level (Clock.initial 0 0) (Or.inl rfl)).2.2.2.1 rfl

/-! ## Clock time and millisecond counter -/

/-- C19: in every reachable state the millisecond counter is below
86 400 000 and the packed clock time is
(timestamp/3 600 000) << 12 | ((timestamp mod 3 600 000)/60 000) << 6 |
((timestamp mod 60 000)/1000). -/
theorem time_agrees_with_timestamp (c : Clock) (hr : Reachable c) :
    c.timestamp < 86400000 ∧
    c.time = ((c.timestamp / 3600000) <<< 12) ||| ((c.timestamp % 3600000 / 60000) <<< 6)
      ||| (c.timestamp % 60000 / 1000) :=
  ⟨(inv_reachable hr).timestamp_lt, (inv_reachable hr).time_eq⟩

/-- C19 after `set_time(23,59,59)`, an edit of the clock and three ticks. -/
theorem time_agrees_with_timestamp_witness :
    (run ((Clock.initial 0 0).set_time 23 59 59)
      [Event.button BUTTON_MENU, Event.button BUTTON_OK, Event.button BUTTON_MINUS,
        Event.button BUTTON_OK, Event.button BUTTON_PLUS, Event.button BUTTON_OK,
        Event.timer, Event.timer, Event.timer]).timestamp < 86400000 :=
  (time_agrees_with_timestamp
    (run ((Clock.initial 0 0).set_time 23 59 59)
      [Event.button BUTTON_MENU, Event.button BUTTON_OK, Event.button BUTTON_MINUS,
        Event.button BUTTON_OK, Event.button BUTTON_PLUS, Event.button BUTTON_OK,
        Event.timer, Event.timer, Event.timer])
    ⟨(Clock.initial 0 0).set_time 23 59 59, _,
      Setup.set_time 23 59 59 (Setup.initial 0 0 (by decide) (by decide)) (by decide)
        (by decide) (by decide), rfl⟩).1

/-! ## What `show` does in each state -/

theorem show_state_menu (c : Clock)
    (h : c.state = STATE_MENU_SET ∨ c.state = STATE_MENU_ALARM) :
    c.show.state = c.state ∧ c.show.display_state = c.display_state ∧
    c.show.alarm_counter = c.alarm_counter ∧
    c.show.alarm_off_counter = c.alarm_off_counter ∧ c.show.tone_plays = c.tone_plays := by
  rcases h with h | h <;> simp [Clock.show, Clock.show_select, Clock.show_render, h]

theorem show_state_set (c : Clock)
    (h : c.state = STATE_SET_CLOCK ∨ c.state = STATE_SET_ALARM) :
    c.show.state = c.state ∧ c.show.display_state = c.display_state ^^^ c.set_digit ∧
    c.show.blink_state = c.set_digit ∧
    c.show.alarm_counter = c.alarm_counter ∧
    c.show.alarm_off_counter = c.alarm_off_counter ∧ c.show.tone_plays = c.tone_plays := by
  rcases h with h | h <;> simp [Clock.show, Clock.show_select, Clock.show_render, h]

theorem show_state_off (c : Clock) (h : c.state = STATE_ALARM_OFF) :
    c.show.alarm_off_counter = (c.alarm_off_counter + 255) % 256 ∧
    ((c.alarm_off_counter + 255) % 256 ≠ 0 → c.show.state = STATE_ALARM_OFF) ∧
    ((c.alarm_off_counter + 255) % 256 = 0 → c.show.state = STATE_CLOCK) ∧
    c.show.display_state = c.display_state ∧ c.show.alarm_counter = c.alarm_counter ∧
    c.show.tone_plays = c.tone_plays := by
  by_cases hc : (c.alarm_off_counter + 255) % 256 = 0 <;>
    simp [Clock.show, Clock.show_select, Clock.show_render, h, hc]

theorem show_state_alarm_expire (c : Clock) (h : c.state = STATE_ALARM)
    (hc : (c.alarm_counter + 255) % 256 = 0) :
    c.show.state = STATE_CLOCK ∧ c.show.alarm_counter = 0 ∧
    c.show.display_state = 3 ∧ c.show.tone_plays = c.tone_plays + 1 ∧
    c.show.alarm_off_counter = c.alarm_off_counter := by
  simp [Clock.show, Clock.show_select, Clock.show_render, h, hc]
  decide

theorem check_alarm_disabled (c : Clock) (h : c.alarm_enabled = false) : c.check_alarm = c :=
  check_alarm_of_not c (by rw [h]; rintro ⟨h', -⟩; exact absurd h' (by decide))

theorem onTimer_disabled (c : Clock) (h : c.alarm_enabled = false) :
    onTimer c = c.update_time.show := by
  unfold onTimer
  rw [check_alarm_disabled _ ((update_time_frame c).2.2.1.trans h)]

/-! ## Countdown of the "OFF" notice -/

theorem tick_off_disabled (c : Clock) (k : Nat) (hs : c.state = STATE_ALARM_OFF)
    (he : c.alarm_enabled = false) (hk : c.alarm_off_counter = k + 1) (hlt : k + 1 < 256) :
    (onTimer c).alarm_off_counter = k ∧ (onTimer c).alarm_enabled = false ∧
    (k ≠ 0 → (onTimer c).state = STATE_ALARM_OFF) ∧
    (k = 0 → (onTimer c).state = STATE_CLOCK) := by
  have hu := update_time_frame c
  have hso := show_state_off c.update_time (hu.1.trans hs)
  rw [hu.2.2.2.2.2.2.2.2.2, hk] at hso
  have e : (k + 1 + 255) % 256 = k := by omega
  rw [e] at hso
  rw [onTimer_disabled c he]
  exact ⟨hso.1, ((show_frame _).2.2.2.1.trans hu.2.2.1).trans he, hso.2.1, hso.2.2.1⟩

theorem run_ticks_off (j : Nat) : ∀ (c : Clock) (k : Nat), c.state = STATE_ALARM_OFF →
    c.alarm_enabled = false → c.alarm_off_counter = k → k < 256 → j < k →
    (run c (List.replicate j Event.timer)).state = STATE_ALARM_OFF ∧
    (run c (List.replicate j Event.timer)).alarm_off_counter = k - j ∧
    (run c (List.replicate j Event.timer)).alarm_enabled = false := by
  induction j with
  | zero => intro c k hs he hk _ _; exact ⟨hs, hk, he⟩
  | succ j ih =>
    intro c k hs he hk hlt hj
    rw [List.replicate_succ, run_cons]
    have ht := tick_off_disabled c (k - 1) hs he (by omega) (by omega)
    have := ih (step c Event.timer) (k - 1) (ht.2.2.1 (by omega)) ht.2.1 ht.1 (by omega)
      (by omega)
    have e : k - 1 - j = k - (j + 1) := by omega
    rw [e] at this
    exact this

/-! ## Countdown of the ring with the alarm switched off -/

theorem tick_alarm_disabled (c : Clock) (k : Nat) (hs : c.state = STATE_ALARM)
    (he : c.alarm_enabled = false) (hk : c.alarm_counter = k + 1) (hlt : k + 1 < 256) :
    (onTimer c).alarm_counter = k ∧ (onTimer c).alarm_enabled = false ∧
    (k ≠ 0 → (onTimer c).state = STATE_ALARM) ∧
    (k = 0 → (onTimer c).state = STATE_CLOCK) := by
  have hu := update_time_frame c
  have e : (c.update_time.alarm_counter + 255) % 256 = k := by
    rw [hu.2.2.2.1, hk]; omega
  have hen : (onTimer c).alarm_enabled = false := by
    rw [onTimer_disabled c he]
    exact ((show_frame _).2.2.2.1.trans hu.2.2.1).trans he
  rw [onTimer_disabled c he]
  rw [onTimer_disabled c he] at hen
  by_cases hk0 : k = 0
  · have := show_state_alarm_expire c.update_time (hu.1.trans hs) (by rw [e]; exact hk0)
    exact ⟨by rw [this.2.1, hk0], hen, fun h => absurd hk0 h, fun _ => this.1⟩
  · have := show_state_alarm c.update_time (hu.1.trans hs) (by rw [e]; exact hk0)
    exact ⟨by rw [this.2.1, e], hen, fun _ => this.1, fun h => absurd h hk0⟩

theorem run_ticks_alarm (j : Nat) : ∀ (c : Clock) (k : Nat), c.state = STATE_ALARM →
    c.alarm_enabled = false → c.alarm_counter = k → k < 256 → j < k →
    (run c (List.replicate j Event.timer)).state = STATE_ALARM ∧
    (run c (List.replicate j Event.timer)).alarm_counter = k - j ∧
    (run c (List.replicate j Event.timer)).alarm_enabled = false := by
  induction j with
  | zero => intro c k hs he hk _ _; exact ⟨hs, hk, he⟩
  | succ j ih =>
    intro c k hs he hk hlt hj
    rw [List.replicate_succ, run_cons]
    have ht := tick_alarm_disabled c (k - 1) hs he (by omega) (by omega)
    have := ih (step c Event.timer) (k - 1) (ht.2.2.1 (by omega)) ht.2.1 ht.1 (by omega)
      (by omega)
    have e : k - 1 - j = k - (j + 1) := by omega
    rw [e] at this
    exact this

theorem run_replicate_succ (c : Clock) (n : Nat) (e : Event) :
    run c (List.replicate (n + 1) e) = step (run c (List.replicate n e)) e := by
  rw [List.replicate_succ', run_append, run_cons, run_nil]

/-- C13: in `STATE_MENU_ALARM` with the alarm disabled, OK yields
`STATE_ALARM_OFF` with the notice counter at 6; with only ticks afterwards the
state is still `STATE_ALARM_OFF` after each of the first 5 ticks and is
`STATE_CLOCK` after the 6th. -/
theorem alarm_off_notice_lasts_6_ticks (c : Clock) (hstate : c.state = STATE_MENU_ALARM)
    (hoff : c.alarm_enabled = false) :
    c.handleButtonOkPress.state = STATE_ALARM_OFF ∧
    c.handleButtonOkPress.alarm_off_counter = 6 ∧
    (∀ n, n ≤ 5 →
      (run c.handleButtonOkPress (List.replicate n Event.timer)).state = STATE_ALARM_OFF) ∧
    (run c.handleButtonOkPress (List.replicate 6 Event.timer)).state = STATE_CLOCK := by
  have hok := ok_menu_alarm_off c hstate hoff
  have h1 : c.handleButtonOkPress.state = STATE_ALARM_OFF := by rw [hok]
  have h2 : c.handleButtonOkPress.alarm_off_counter = 6 := by rw [hok]
  have h3 : c.handleButtonOkPress.alarm_enabled = false := by rw [hok]; exact hoff
  refine ⟨h1, h2, ?_, ?_⟩
  · intro n hn
    exact (run_ticks_off n c.handleButtonOkPress 6 h1 h3 h2 (by decide) (by omega)).1
  · have h5 := run_ticks_off 5 c.handleButtonOkPress 6 h1 h3 h2 (by decide) (by decide)
    rw [run_replicate_succ]
    exact (tick_off_disabled _ 0 h5.1 h5.2.2 h5.2.1 (by decide)).2.2.2 rfl

/-- C13 on the initial state after two MENU presses. -/
theorem alarm_off_notice_lasts_6_ticks_witness :
    (run (Clock.initial 0 0).handleButtonMenuPress.handleButtonMenuPress.handleButtonOkPress
      (List.replicate 6 Event.timer)).state = STATE_CLOCK :=
  (alarm_off_notice_lasts_6_ticks
    (Clock.initial 0 0).handleButtonMenuPress.handleButtonMenuPress rfl rfl).2.2.2

/-- C14: `handleSwitchAlarmChange(b)` sets `alarm_enabled` to b and leaves
the state, the ring counter, the clock time, the millisecond counter, the
alarm time, the edit buffer, the focus and `display_state` unchanged.  After
switching the alarm off in `STATE_ALARM` with the ring counter at k
(1 <= k <= 255), the state is still `STATE_ALARM` and the counter is k - j
after j < k ticks, and the state is `STATE_CLOCK` with the counter at 0 after
k ticks. -/
theorem switch_changes_only_alarm_enabled (c : Clock) (b : Bool) :
    (c.handleSwitchAlarmChange b).alarm_enabled = b ∧
    (c.handleSwitchAlarmChange b).state = c.state ∧
    (c.handleSwitchAlarmChange b).alarm_counter = c.alarm_counter ∧
    (c.handleSwitchAlarmChange b).time = c.time ∧
    (c.handleSwitchAlarmChange b).timestamp = c.timestamp ∧
    (c.handleSwitchAlarmChange b).alarm = c.alarm ∧
    (c.handleSwitchAlarmChange b).temp_time = c.temp_time ∧
    (c.handleSwitchAlarmChange b).set_digit = c.set_digit ∧
    (c.handleSwitchAlarmChange b).display_state = c.display_state ∧
    (c.state = STATE_ALARM → 1 ≤ c.alarm_counter → c.alarm_counter < 256 →
      (∀ j, j < c.alarm_counter →
        (run (c.handleSwitchAlarmChange false) (List.replicate j Event.timer)).state
          = STATE_ALARM ∧
        (run (c.handleSwitchAlarmChange false) (List.replicate j Event.timer)).alarm_counter
          = c.alarm_counter - j) ∧
      (run (c.handleSwitchAlarmChange false)
        (List.replicate c.alarm_counter Event.timer)).state = STATE_CLOCK ∧
      (run (c.handleSwitchAlarmChange false)
        (List.replicate c.alarm_counter Event.timer)).alarm_counter = 0) := by
  refine ⟨rfl, rfl, rfl, rfl, rfl, rfl, rfl, rfl, rfl, ?_⟩
  intro hs h1 hlt
  have hs' : (c.handleSwitchAlarmChange false).state = STATE_ALARM := hs
  have he' : (c.handleSwitchAlarmChange false).alarm_enabled = false := rfl
  have hk' : (c.handleSwitchAlarmChange false).alarm_counter = c.alarm_counter := rfl
  refine ⟨?_, ?_⟩
  · intro j hj
    have := run_ticks_alarm j _ c.alarm_counter hs' he' hk' hlt hj
    exact ⟨this.1, this.2.1⟩
  · obtain ⟨k, hk⟩ : ∃ k, c.alarm_counter = k + 1 := ⟨c.alarm_counter - 1, by omega⟩
    have hp := run_ticks_alarm k _ c.alarm_counter hs' he' hk' hlt (by omega)
    rw [hk, run_replicate_succ]
    rw [hk] at hp
    have ht := tick_alarm_disabled _ 0 hp.1 hp.2.2 (by rw [hp.2.1]; omega) (by decide)
    exact ⟨ht.2.2.2 rfl, ht.1⟩

/-- C14 on a clock ringing with the counter at 3. -/
theorem switch_changes_only_alarm_enabled_witness :
    (run (({ Clock.initial 0 0 with
        state := STATE_ALARM, alarm_counter := 3, alarm_enabled := true
      }).handleSwitchAlarmChange false)
      (List.replicate ({ Clock.initial 0 0 with
        state := STATE_ALARM, alarm_counter := 3, alarm_enabled := true
      }).alarm_counter Event.timer)).state = STATE_CLOCK :=
  ((switch_changes_only_alarm_enabled ({ Clock.initial 0 0 with
      state := STATE_ALARM, alarm_counter := 3, alarm_enabled := true }) false).2.2.2.2.2.2.2.2.2
    rfl (by decide) (by decide)).2.1

/-! ## Ticks in the menu and edit states -/

theorem onTimer_no_trigger_blink (c : Clock)
    (hno : ¬(c.alarm_enabled = true ∧ c.update_time.time = c.alarm)) :
    (c.state = STATE_CLOCK →
      (onTimer c).state = STATE_CLOCK ∧ (onTimer c).display_state = c.display_state ^^^ POINT) ∧
    (c.state = STATE_SET_CLOCK ∨ c.state = STATE_SET_ALARM →
      (onTimer c).state = c.state ∧
      (onTimer c).display_state = c.display_state ^^^ c.set_digit) := by
  have hu := update_time_frame c
  rw [onTimer_no_trigger c hno]
  constructor
  · intro h
    have := show_state_clock c.update_time (hu.1.trans h)
    rw [hu.2.2.2.2.1] at this
    exact ⟨this.1, this.2.2.2⟩
  · intro h
    have h' : c.update_time.state = STATE_SET_CLOCK ∨ c.update_time.state = STATE_SET_ALARM := by
      rw [hu.1]; exact h
    have := show_state_set c.update_time h'
    rw [hu.2.2.2.2.1, hu.2.2.2.2.2.1, hu.1] at this
    exact ⟨this.1, this.2.1⟩

/-- C18: on a tick on which the alarm does not trigger, `display_state` is
replaced by `display_state ^ POINT` in `STATE_CLOCK` and, in `STATE_SET_CLOCK`
and `STATE_SET_ALARM`, by `display_state ^ DIGITS_LEFT` when the focus is on
the hours and `display_state ^ DIGITS_RIGHT` when it is on the minutes; two
consecutive such ticks restore the original `display_state`. -/
theorem blink_flips_mask (c : Clock)
    (hstate : c.state = STATE_CLOCK ∨ c.state = STATE_SET_CLOCK ∨ c.state = STATE_SET_ALARM)
    (hno : ¬(c.alarm_enabled = true ∧ c.update_time.time = c.alarm)) :
    (c.state = STATE_CLOCK → (onTimer c).display_state = c.display_state ^^^ POINT) ∧
    (c.state ≠ STATE_CLOCK → c.set_digit = DIGITS_LEFT →
      (onTimer c).display_state = c.display_state ^^^ DIGITS_LEFT) ∧
    (c.state ≠ STATE_CLOCK → c.set_digit = DIGITS_RIGHT →
      (onTimer c).display_state = c.display_state ^^^ DIGITS_RIGHT) ∧
    (¬((onTimer c).alarm_enabled = true ∧ (onTimer c).update_time.time = (onTimer c).alarm) →
      (onTimer (onTimer c)).display_state = c.display_state) := by
  have b1 := onTimer_no_trigger_blink c hno
  have hset : c.state ≠ STATE_CLOCK → c.state = STATE_SET_CLOCK ∨ c.state = STATE_SET_ALARM := by
    intro hne
    rcases hstate with h | h | h
    · exact absurd h hne
    · exact Or.inl h
    · exact Or.inr h
  refine ⟨fun h => (b1.1 h).2, ?_, ?_, ?_⟩
  · intro hne hd
    rw [(b1.2 (hset hne)).2, hd]
  · intro hne hd
    rw [(b1.2 (hset hne)).2, hd]
  · intro hno2
    have b2 := onTimer_no_trigger_blink (onTimer c) hno2
    by_cases h : c.state = STATE_CLOCK
    · rw [(b2.1 (b1.1 h).1).2, (b1.1 h).2]
      exact Nat.xor_cancel_right _ _
    · have hs := hset h
      have h1 := b1.2 hs
      have hs2 : (onTimer c).state = STATE_SET_CLOCK ∨ (onTimer c).state = STATE_SET_ALARM := by
        rw [h1.1]; exact hs
      rw [(b2.2 hs2).2, h1.2, (onTimer_frame c).2.2.2.2.2.2]
      exact Nat.xor_cancel_right _ _

/-- C18 on the initial state: the colon is off after one tick and on again
after two. -/
theorem blink_flips_mask_witness :
    (onTimer (Clock.initial 0 0)).display_state = (Clock.initial 0 0).display_state ^^^ POINT ∧
    (onTimer (onTimer (Clock.initial 0 0))).display_state
      = (Clock.initial 0 0).display_state :=
  ⟨(blink_flips_mask (Clock.initial 0 0) (Or.inl rfl) (by decide)).1 rfl,
    (blink_flips_mask (Clock.initial 0 0) (Or.inl rfl) (by decide)).2.2.2 (by decide)⟩

/-! ## The rendered frame -/

theorem and_two_shift (x : Nat) : ((x &&& 2) >>> 1 ≠ 0) ↔ (x &&& 2 ≠ 0) := by
  have h1 : x &&& 2 ≤ 2 := Nat.and_le_right
  have h2 : (x &&& 2) &&& 2 = x &&& 2 := by rw [Nat.and_assoc, Nat.and_self]
  rw [Nat.shiftRight_eq_div_pow]
  generalize x &&& 2 = y at h1 h2
  interval_cases y
  · decide
  · exact absurd h2 (by decide)
  · decide

theorem and_four_shift (x : Nat) : ((x &&& 4) >>> 2 ≠ 0) ↔ (x &&& 4 ≠ 0) := by
  have h1 : x &&& 4 ≤ 4 := Nat.and_le_right
  have h2 : (x &&& 4) &&& 4 = x &&& 4 := by rw [Nat.and_assoc, Nat.and_self]
  rw [Nat.shiftRight_eq_div_pow]
  generalize x &&& 4 = y at h1 h2
  interval_cases y
  · decide
  · exact absurd h2 (by decide)
  · exact absurd h2 (by decide)
  · exact absurd h2 (by decide)
  · decide

theorem digit_div (n : Nat) (hn : n < 100) :
    toInt8 (Int.tdiv (toInt8 (n : Int)) 10) = ((n / 10 : Nat) : Int) := by
  rw [toInt8_of_lt n (by omega), Int.tdiv_eq_ediv (by omega) (by decide)]
  unfold toInt8; omega

theorem digit_mod (n : Nat) (hn : n < 100) :
    toInt8 (Int.tmod (toInt8 (n : Int)) 10) = ((n % 10 : Nat) : Int) := by
  rw [toInt8_of_lt n (by omega), Int.tmod_eq_emod (by omega) (by decide)]
  unfold toInt8; omega

theorem show_render_digit_fields (c : Clock) (p : TimePtr)
    (hstate : c.state = STATE_CLOCK ∨ c.state = STATE_ALARM ∨ c.state = STATE_SET_CLOCK ∨
      c.state = STATE_SET_ALARM) :
    (c.show_render p).state = c.state ∧
    (c.show_render p).display_state = c.display_state ^^^ c.blink_state ∧
    (c.show_render p).display.point
      = decide (((c.display_state ^^^ c.blink_state) &&& POINT) >>> 2 ≠ 0) ∧
    (c.show_render p).display.shown = Shown.digits
      (if ((c.display_state ^^^ c.blink_state) &&& DIGITS_LEFT) >>> 1 ≠ 0 then
        toInt8 (Int.tdiv (toInt8 (c.deref p >>> 12 : Nat)) 10) else 127)
      (if ((c.display_state ^^^ c.blink_state) &&& DIGITS_LEFT) >>> 1 ≠ 0 then
        toInt8 (Int.tmod (toInt8 (c.deref p >>> 12 : Nat)) 10) else 127)
      (if (c.display_state ^^^ c.blink_state) &&& DIGITS_RIGHT ≠ 0 then
        toInt8 (Int.tdiv (toInt8 ((c.deref p >>> 6) &&& 63 : Nat)) 10) else 127)
      (if (c.display_state ^^^ c.blink_state) &&& DIGITS_RIGHT ≠ 0 then
        toInt8 (Int.tmod (toInt8 ((c.deref p >>> 6) &&& 63 : Nat)) 10) else 127) := by
  have n1 : ¬ (c.state = STATE_MENU_SET) := by
    rcases hstate with h | h | h | h <;> rw [h] <;> decide
  have n2 : ¬ (c.state = STATE_MENU_ALARM) := by
    rcases hstate with h | h | h | h <;> rw [h] <;> decide
  have n3 : ¬ (c.state = STATE_ALARM_OFF) := by
    rcases hstate with h | h | h | h <;> rw [h] <;> decide
  simp only [Clock.show_render, n1, n2, n3, hstate, if_true, if_false]
  refine ⟨trivial, trivial, trivial, ?_⟩
  split_ifs <;> cases p <;> rfl

theorem show_render_spec (c : Clock) (p : TimePtr) (h m s : Nat)
    (hh : h < 24) (hm : m < 60) (hs : s < 60)
    (hstate : c.state = STATE_CLOCK ∨ c.state = STATE_ALARM ∨ c.state = STATE_SET_CLOCK ∨
      c.state = STATE_SET_ALARM)
    (hsrc : c.deref p = packTime h m s) :
    (c.show_render p).display_state = c.display_state ^^^ c.blink_state ∧
    (c.show_render p).display = specFrame (c.display_state ^^^ c.blink_state) h m := by
  have f := show_render_digit_fields c p hstate
  have d1 : c.deref p >>> 12 = h := by
    rw [hsrc]; exact hoursOf_packTime h m s (by omega) (by omega)
  have d2 : (c.deref p >>> 6) &&& 63 = m := by
    rw [hsrc]; exact minutesOf_packTime h m s (by omega) (by omega)
  have e1 := digit_div h (by omega)
  have e2 := digit_mod h (by omega)
  have e3 := digit_div m (by omega)
  have e4 := digit_mod m (by omega)
  have b2 := and_two_shift (c.display_state ^^^ c.blink_state)
  have b4 := and_four_shift (c.display_state ^^^ c.blink_state)
  refine ⟨f.2.1, ?_⟩
  have eta : (c.show_render p).display
      = { point := (c.show_render p).display.point, shown := (c.show_render p).display.shown } :=
    rfl
  rw [eta, f.2.2.1, f.2.2.2]
  simp only [d1, d2, e1, e2, e3, e4, b2, b4, specFrame]

theorem specFrame_digits (ds h m : Nat) (hh : h < 24) (hm : m < 60) :
    ∃ d0 d1 d2 d3, (specFrame ds h m).shown = Shown.digits d0 d1 d2 d3 ∧
      isDigitOrBlank d0 ∧ isDigitOrBlank d1 ∧ isDigitOrBlank d2 ∧ isDigitOrBlank d3 := by
  refine ⟨_, _, _, _, rfl, ?_, ?_, ?_, ?_⟩ <;> unfold isDigitOrBlank <;> split_ifs <;> omega

theorem show_select_clock (c : Clock) (h : c.state = STATE_CLOCK) :
    c.show_select = ({ c with blink_state := POINT }, TimePtr.time) := by
  simp [Clock.show_select, h]

theorem show_select_set (c : Clock)
    (h : c.state = STATE_SET_CLOCK ∨ c.state = STATE_SET_ALARM) :
    c.show_select = ({ c with blink_state := c.set_digit }, TimePtr.temp_time) := by
  rcases h with h | h <;> simp [Clock.show_select, h]

theorem show_select_alarm (c : Clock) (h : c.state = STATE_ALARM)
    (hc : (c.alarm_counter + 255) % 256 ≠ 0) :
    c.show_select = ({ c with
      blink_state := DIGITS_LEFT ||| POINT ||| DIGITS_RIGHT
      tone_plays := c.tone_plays + 1
      alarm_counter := (c.alarm_counter + 255) % 256 }, TimePtr.alarm) := by
  simp [Clock.show_select, h, hc]

/-- C16: in `STATE_CLOCK`, `STATE_SET_CLOCK`, `STATE_SET_ALARM` or a
non-expiring `STATE_ALARM`, with the displayed time (clock time, edit buffer,
edit buffer, alarm time) equal to h:m:s with valid fields, `show` XORs
`display_state` with the blink mask of the state and sends the frame computed
from the new `display_state`: hours/10 and hours%10 if the `DIGITS_LEFT` bit
is set and `0x7f` twice otherwise, minutes/10 and minutes%10 if the
`DIGITS_RIGHT` bit is set and `0x7f` twice otherwise, the colon on iff the
`POINT` bit is set; every digit sent is in 0..9 or is `0x7f`. -/
theorem show_frame_from_display_state (c : Clock) (h m s : Nat)
    (hh : h < 24) (hm : m < 60) (hs : s < 60)
    (hmode : (c.state = STATE_CLOCK ∧ c.time = packTime h m s) ∨
      ((c.state = STATE_SET_CLOCK ∨ c.state = STATE_SET_ALARM) ∧
        c.temp_time = packTime h m s) ∨
      (c.state = STATE_ALARM ∧ (c.alarm_counter + 255) % 256 ≠ 0 ∧
        c.alarm = packTime h m s)) :
    (c.state = STATE_CLOCK → c.show.display_state = c.display_state ^^^ POINT) ∧
    (c.state = STATE_SET_CLOCK ∨ c.state = STATE_SET_ALARM →
      c.show.display_state = c.display_state ^^^ c.set_digit) ∧
    (c.state = STATE_ALARM →
      c.show.display_state = c.display_state ^^^ (DIGITS_LEFT ||| POINT ||| DIGITS_RIGHT)) ∧
    c.show.display = specFrame c.show.display_state h m ∧
    (∃ d0 d1 d2 d3, c.show.display.shown = Shown.digits d0 d1 d2 d3 ∧
      isDigitOrBlank d0 ∧ isDigitOrBlank d1 ∧ isDigitOrBlank d2 ∧ isDigitOrBlank d3) := by
  have key : ∃ mask, c.show.display_state = c.display_state ^^^ mask ∧
      c.show.display = specFrame (c.display_state ^^^ mask) h m ∧
      (c.state = STATE_CLOCK → mask = POINT) ∧
      (c.state = STATE_SET_CLOCK ∨ c.state = STATE_SET_ALARM → mask = c.set_digit) ∧
      (c.state = STATE_ALARM → mask = DIGITS_LEFT ||| POINT ||| DIGITS_RIGHT) := by
    rcases hmode with ⟨hst, hsrc⟩ | ⟨hst, hsrc⟩ | ⟨hst, hcnt, hsrc⟩
    · have r := show_render_spec ({ c with blink_state := POINT }) TimePtr.time h m s hh hm hs
        (Or.inl hst) hsrc
      unfold Clock.show
      rw [show_select_clock c hst]
      exact ⟨POINT, r.1, r.2, fun _ => rfl,
        fun h' => by rcases h' with h' | h' <;> rw [hst] at h' <;> exact absurd h' (by decide),
        fun h' => by rw [hst] at h'; exact absurd h' (by decide)⟩
    · have r := show_render_spec ({ c with blink_state := c.set_digit }) TimePtr.temp_time
        h m s hh hm hs (Or.inr (Or.inr hst)) hsrc
      unfold Clock.show
      rw [show_select_set c hst]
      exact ⟨c.set_digit, r.1, r.2,
        fun h' => by rcases hst with h'' | h'' <;> rw [h''] at h' <;> exact absurd h' (by decide),
        fun _ => rfl,
        fun h' => by rcases hst with h'' | h'' <;> rw [h''] at h' <;> exact absurd h' (by decide)⟩
    · have r := show_render_spec ({ c with
          blink_state := DIGITS_LEFT ||| POINT ||| DIGITS_RIGHT
          tone_plays := c.tone_plays + 1
          alarm_counter := (c.alarm_counter + 255) % 256 }) TimePtr.alarm
        h m s hh hm hs (Or.inr (Or.inl hst)) hsrc
      unfold Clock.show
      rw [show_select_alarm c hst hcnt]
      exact ⟨DIGITS_LEFT ||| POINT ||| DIGITS_RIGHT, r.1, r.2,
        fun h' => by rw [hst] at h'; exact absurd h' (by decide),
        fun h' => by rcases h' with h' | h' <;> rw [hst] at h' <;> exact absurd h' (by decide),
        fun _ => rfl⟩
  obtain ⟨mask, k1, k2, k3, k4, k5⟩ := key
  refine ⟨fun h' => by rw [k1, k3 h'], fun h' => by rw [k1, k4 h'],
    fun h' => by rw [k1, k5 h'], by rw [k2, k1], ?_⟩
  rw [k2]
  exact specFrame_digits _ h m hh hm

/-- C16 on the initial state showing 18:46:45 in `STATE_CLOCK`: the colon goes
off and the digits 1, 8, 4, 6 are sent. -/
theorem show_frame_from_display_state_witness :
    ((Clock.initial 0 0).set_time 18 46 45).show.display
      = { point := false, shown := Shown.digits 1 8 4 6 } :=
  (show_frame_from_display_state ((Clock.initial 0 0).set_time 18 46 45) 18 46 45
    (by decide) (by decide) (by decide) (Or.inl ⟨rfl, by decide⟩)).2.2.2.1

/-! ## Invariant of `display_state` -/

theorem show_state_other (c : Clock) (h0 : c.state ≠ STATE_CLOCK) (h1 : c.state ≠ STATE_MENU_SET)
    (h2 : c.state ≠ STATE_MENU_ALARM) (h3 : c.state ≠ STATE_SET_CLOCK)
    (h4 : c.state ≠ STATE_SET_ALARM) (h5 : c.state ≠ STATE_ALARM_OFF)
    (h6 : c.state ≠ STATE_ALARM) :
    c.show.state = c.state ∧ c.show.display_state = c.display_state := by
  simp [Clock.show, Clock.show_select, Clock.show_render, h0, h1, h2, h3, h4, h5, h6]

theorem displayInv_show (c : Clock)
    (hd : c.set_digit = DIGITS_LEFT ∨ c.set_digit = DIGITS_RIGHT) (hi : DisplayInv c) :
    DisplayInv c.show := by
  by_cases h0 : c.state = STATE_CLOCK
  · have s := show_state_clock c h0
    have hds : c.show.display_state = 3 ∨ c.show.display_state = 7 := by
      rw [s.2.2.2]
      rcases hi.clock_digits h0 with h | h <;> rw [h]
      · exact Or.inl (by decide)
      · exact Or.inr (by decide)
    refine ⟨by rcases hds with h | h <;> rw [h] <;> decide, fun _ => hds.symm, ?_⟩
    intro h; rw [s.1] at h; exact absurd h (by decide)
  by_cases h34 : c.state = STATE_SET_CLOCK ∨ c.state = STATE_SET_ALARM
  · have s := show_state_set c h34
    have hm : c.set_digit < 2 ^ 3 := by rcases hd with h | h <;> rw [h] <;> decide
    have hb : c.display_state < 2 ^ 3 := hi.bits
    refine ⟨by rw [s.2.1]; exact Nat.xor_lt_two_pow hb hm, ?_, ?_⟩
    · intro h; rw [s.1] at h
      rcases h34 with h' | h' <;> rw [h'] at h <;> exact absurd h (by decide)
    · intro h; rw [s.1] at h
      rcases h34 with h' | h' <;> rw [h'] at h <;> exact absurd h (by decide)
  by_cases h6 : c.state = STATE_ALARM
  · by_cases hc : (c.alarm_counter + 255) % 256 = 0
    · have s := show_state_alarm_expire c h6 hc
      refine ⟨by rw [s.2.2.1]; decide, fun _ => Or.inr s.2.2.1, ?_⟩
      intro h; rw [s.1] at h; exact absurd h (by decide)
    · have s := show_state_alarm c h6 hc
      have hb : c.display_state < 2 ^ 3 := hi.bits
      refine ⟨by rw [s.2.2.2]; exact Nat.xor_lt_two_pow hb (by decide), ?_, ?_⟩
      · intro h; rw [s.1] at h; exact absurd h (by decide)
      · intro h; rw [s.1] at h; exact absurd h (by decide)
  by_cases h12 : c.state = STATE_MENU_SET ∨ c.state = STATE_MENU_ALARM
  · have s := show_state_menu c h12
    refine ⟨by rw [s.2.1]; exact hi.bits, ?_, ?_⟩
    · intro h; rw [s.1] at h; exact absurd h h0
    · intro h; rw [s.1] at h
      rcases h12 with h' | h' <;> rw [h'] at h <;> exact absurd h (by decide)
  by_cases h5 : c.state = STATE_ALARM_OFF
  · have s := show_state_off c h5
    have h7 := hi.off_all h5
    exact ⟨by rw [s.2.2.2.1]; exact hi.bits, fun _ => Or.inl (s.2.2.2.1.trans h7),
      fun _ => s.2.2.2.1.trans h7⟩
  · have s := show_state_other c h0 (fun h => h12 (Or.inl h)) (fun h => h12 (Or.inr h))
      (fun h => h34 (Or.inl h)) (fun h => h34 (Or.inr h)) h5 h6
    exact ⟨by rw [s.2]; exact hi.bits, fun h => by rw [s.2]; exact hi.clock_digits (s.1 ▸ h),
      fun h => by rw [s.2]; exact hi.off_all (s.1 ▸ h)⟩

theorem displayInv_check_alarm (c : Clock) (hi : DisplayInv c) : DisplayInv c.check_alarm := by
  by_cases h : c.alarm_enabled = true ∧ c.time = c.alarm
  · have f := check_alarm_match_fields c h
    refine ⟨by rw [f.2.2.1]; decide, ?_, ?_⟩
    · intro h'; rw [f.1] at h'; exact absurd h' (by decide)
    · intro h'; rw [f.1] at h'; exact absurd h' (by decide)
  · rw [check_alarm_of_not c h]; exact hi

theorem displayInv_onTimer (c : Clock)
    (hd : c.set_digit = DIGITS_LEFT ∨ c.set_digit = DIGITS_RIGHT) (hi : DisplayInv c) :
    DisplayInv (onTimer c) := by
  have hu := update_time_frame c
  have h1 : DisplayInv c.update_time :=
    ⟨by rw [hu.2.2.2.2.1]; exact hi.bits,
      fun h => by rw [hu.2.2.2.2.1]; exact hi.clock_digits (hu.1 ▸ h),
      fun h => by rw [hu.2.2.2.2.1]; exact hi.off_all (hu.1 ▸ h)⟩
  have h2 := displayInv_check_alarm _ h1
  unfold onTimer
  refine displayInv_show _ ?_ h2
  rw [(check_alarm_frame c.update_time).2.2.2.2.2.2, hu.2.2.2.2.2.1]
  exact hd

theorem displayInv_of_all_on (c : Clock)
    (h : c.display_state = DIGITS_LEFT ||| POINT ||| DIGITS_RIGHT) : DisplayInv c :=
  ⟨by rw [h]; decide, fun _ => Or.inl h, fun _ => h⟩

theorem menu_display (c : Clock) :
    c.handleButtonMenuPress.display_state = DIGITS_LEFT ||| POINT ||| DIGITS_RIGHT := by
  simp only [Clock.handleButtonMenuPress]
  split_ifs <;> rfl

theorem commit_display (c : Clock) : c.commit_temp_time.display_state = c.display_state := by
  simp only [Clock.commit_temp_time]
  split_ifs <;> rfl

theorem ok_display (c : Clock) :
    c.handleButtonOkPress.display_state = DIGITS_LEFT ||| POINT ||| DIGITS_RIGHT := by
  simp only [Clock.handleButtonOkPress]
  split_ifs <;> first | rfl | exact commit_display _

theorem displayInv_step (c : Clock) (e : Event) (hv : Inv c) (hi : DisplayInv c) :
    DisplayInv (step c e) := by
  cases e with
  | timer => exact displayInv_onTimer c hv.digit hi
  | button b =>
    cases b with
    | BUTTON_MENU => exact displayInv_of_all_on _ (menu_display c)
    | BUTTON_PLUS => exact ⟨hi.bits, hi.clock_digits, hi.off_all⟩
    | BUTTON_MINUS => exact ⟨hi.bits, hi.clock_digits, hi.off_all⟩
    | BUTTON_OK => exact displayInv_of_all_on _ (ok_display c)
  | switchAlarm b => exact ⟨hi.bits, hi.clock_digits, hi.off_all⟩

theorem displayInv_run (events : List Event) :
    ∀ c : Clock, Inv c → DisplayInv c → DisplayInv (run c events) := by
  induction events with
  | nil => intro c _ hi; exact hi
  | cons e l ih =>
    intro c hv hi
    rw [run_cons]
    exact ih _ (inv_step c e hv) (displayInv_step c e hv hi)

theorem displayInv_setup {c : Clock} (hs : Setup c) : DisplayInv c := by
  induction hs with
  | initial a b _ _ => exact displayInv_of_all_on _ rfl
  | set_time h m s _ _ _ _ ih => exact ⟨ih.bits, ih.clock_digits, ih.off_all⟩
  | set_alarm h m _ _ _ ih => exact ⟨ih.bits, ih.clock_digits, ih.off_all⟩

theorem displayInv_reachable {c : Clock} (hr : Reachable c) : DisplayInv c := by
  obtain ⟨c₀, events, hs, rfl⟩ := hr
  exact displayInv_run events c₀ (inv_setup hs) (displayInv_setup hs)

/-- C20: in every reachable state `display_state` has no bit outside
`DIGITS_LEFT | POINT | DIGITS_RIGHT`, and whenever the state is `STATE_CLOCK`
both the `DIGITS_LEFT` and the `DIGITS_RIGHT` bits are set (only the colon may
be off). -/
theorem clock_digits_never_blank (c : Clock) (hr : Reachable c) :
    c.display_state &&& (DIGITS_LEFT ||| POINT ||| DIGITS_RIGHT) = c.display_state ∧
    (c.state = STATE_CLOCK →
      c.display_state &&& DIGITS_LEFT = DIGITS_LEFT ∧
      c.display_state &&& DIGITS_RIGHT = DIGITS_RIGHT) := by
  have hi := displayInv_reachable hr
  constructor
  · have hb : c.display_state < 2 ^ 3 := hi.bits
    exact Nat.and_pow_two_sub_one_of_lt_two_pow hb
  · intro h
    rcases hi.clock_digits h with h' | h' <;> rw [h'] <;> decide

/-- C20 after an alarm dismissed with OK and two more ticks. -/
theorem clock_digits_never_blank_witness :
    (run (Clock.initial 0 0)
      [Event.switchAlarm true, Event.timer, Event.timer, Event.button BUTTON_OK,
        Event.timer, Event.timer]).display_state &&& DIGITS_LEFT = DIGITS_LEFT ∧
    (run (Clock.initial 0 0)
      [Event.switchAlarm true, Event.timer, Event.timer, Event.button BUTTON_OK,
        Event.timer, Event.timer]).display_state &&& DIGITS_RIGHT = DIGITS_RIGHT :=
  (clock_digits_never_blank
    (run (Clock.initial 0 0)
      [Event.switchAlarm true, Event.timer, Event.timer, Event.button BUTTON_OK,
        Event.timer, Event.timer])
    ⟨Clock.initial 0 0, _, Setup.initial 0 0 (by decide) (by decide), rfl⟩).2 (by decide)

/-! ## Invariant of the countdown counters -/

theorem counterInv_of_state (c : Clock) (h6 : c.state ≠ STATE_ALARM)
    (h5 : c.state ≠ STATE_ALARM_OFF) : CounterInv c :=
  ⟨fun h => absurd h h6, fun h => absurd h h5⟩

theorem counterInv_check_alarm (c : Clock) (hi : CounterInv c) : CounterInv c.check_alarm := by
  by_cases h : c.alarm_enabled = true ∧ c.time = c.alarm
  · have f := check_alarm_match_fields c h
    refine ⟨fun _ => by rw [f.2.1]; decide, ?_⟩
    intro h'; rw [f.1] at h'; exact absurd h' (by decide)
  · rw [check_alarm_of_not c h]; exact hi

theorem counterInv_show (c : Clock) (hi : CounterInv c) : CounterInv c.show := by
  by_cases h0 : c.state = STATE_CLOCK
  · have s := show_state_clock c h0
    exact counterInv_of_state _ (by rw [s.1]; decide) (by rw [s.1]; decide)
  by_cases h34 : c.state = STATE_SET_CLOCK ∨ c.state = STATE_SET_ALARM
  · have s := show_state_set c h34
    refine counterInv_of_state _ ?_ ?_ <;> rw [s.1] <;>
      rcases h34 with h | h <;> rw [h] <;> decide
  by_cases h12 : c.state = STATE_MENU_SET ∨ c.state = STATE_MENU_ALARM
  · have s := show_state_menu c h12
    refine counterInv_of_state _ ?_ ?_ <;> rw [s.1] <;>
      rcases h12 with h | h <;> rw [h] <;> decide
  by_cases h6 : c.state = STATE_ALARM
  · have hk := hi.ring h6
    by_cases hc : (c.alarm_counter + 255) % 256 = 0
    · have s := show_state_alarm_expire c h6 hc
      exact counterInv_of_state _ (by rw [s.1]; decide) (by rw [s.1]; decide)
    · have s := show_state_alarm c h6 hc
      refine ⟨fun _ => ?_, ?_⟩
      · rw [s.2.1]; omega
      · intro h; rw [s.1] at h; exact absurd h (by decide)
  by_cases h5 : c.state = STATE_ALARM_OFF
  · have hk := hi.notice h5
    have s := show_state_off c h5
    by_cases hc : (c.alarm_off_counter + 255) % 256 = 0
    · have hs := s.2.2.1 hc
      exact counterInv_of_state _ (by rw [hs]; decide) (by rw [hs]; decide)
    · have hs := s.2.1 hc
      refine ⟨?_, fun _ => ?_⟩
      · intro h; rw [hs] at h; exact absurd h (by decide)
      · rw [s.1]; omega
  · have s := show_state_other c h0 (fun h => h12 (Or.inl h)) (fun h => h12 (Or.inr h))
      (fun h => h34 (Or.inl h)) (fun h => h34 (Or.inr h)) h5 h6
    exact counterInv_of_state _ (by rw [s.1]; exact h6) (by rw [s.1]; exact h5)

theorem counterInv_update_time (c : Clock) (hi : CounterInv c) : CounterInv c.update_time :=
  ⟨hi.ring, hi.notice⟩

theorem counterInv_onTimer (c : Clock) (hi : CounterInv c) : CounterInv (onTimer c) :=
  counterInv_show _ (counterInv_check_alarm _ (counterInv_update_time c hi))

theorem menu_counters (c : Clock) :
    c.handleButtonMenuPress.alarm_counter = c.alarm_counter ∧
    c.handleButtonMenuPress.alarm_off_counter = c.alarm_off_counter ∧
    (c.handleButtonMenuPress.state = c.state ∨ c.handleButtonMenuPress.state < 3) := by
  simp only [Clock.handleButtonMenuPress]
  split_ifs
  · exact ⟨rfl, rfl, Or.inr (Nat.mod_lt _ (by decide))⟩
  · exact ⟨rfl, rfl, Or.inr (by decide : (0 : Nat) < 3)⟩
  · exact ⟨rfl, rfl, Or.inl rfl⟩

theorem counterInv_menu (c : Clock) (hi : CounterInv c) : CounterInv c.handleButtonMenuPress := by
  have f := menu_counters c
  rcases f.2.2 with h | h
  · exact ⟨fun h' => by rw [f.1]; exact hi.ring (h ▸ h'),
      fun h' => by rw [f.2.1]; exact hi.notice (h ▸ h')⟩
  · exact counterInv_of_state _ (by intro h'; rw [h'] at h; exact absurd h (by decide))
      (by intro h'; rw [h'] at h; exact absurd h (by decide))

theorem commit_state (c : Clock) : c.commit_temp_time.state = c.state := by
  simp only [Clock.commit_temp_time]
  split_ifs <;> rfl

theorem counterInv_ok (c : Clock) (hv : Inv c) (hi : CounterInv c) :
    CounterInv c.handleButtonOkPress := by
  by_cases h1 : c.state = STATE_MENU_SET
  · rw [ok_menu_set c h1]
    exact ⟨fun h => absurd h (by decide : (3 : Nat) ≠ 6),
      fun h => absurd h (by decide : (3 : Nat) ≠ 5)⟩
  by_cases h2 : c.state = STATE_MENU_ALARM
  · cases he : c.alarm_enabled
    · rw [ok_menu_alarm_off c h2 he]
      exact ⟨fun h => absurd h (by decide : (5 : Nat) ≠ 6),
        fun _ => (by decide : 1 ≤ 6 ∧ 6 ≤ 6)⟩
    · rw [ok_menu_alarm_on c h2 he]
      exact ⟨fun h => absurd h (by decide : (4 : Nat) ≠ 6),
        fun h => absurd h (by decide : (4 : Nat) ≠ 5)⟩
  by_cases h3 : c.state = STATE_SET_CLOCK ∨ c.state = STATE_SET_ALARM
  · rcases hv.digit with hd | hd
    · rw [ok_set_left c h3 hd]
      exact ⟨hi.ring, hi.notice⟩
    · rw [ok_set_right c h3 hd]
      have hs := commit_state ({ c with
        display_state := DIGITS_LEFT ||| POINT ||| DIGITS_RIGHT
        state := STATE_CLOCK })
      refine ⟨fun h => ?_, fun h => ?_⟩
      · exact absurd (hs.symm.trans h) (by decide : (0 : Nat) ≠ 6)
      · exact absurd (hs.symm.trans h) (by decide : (0 : Nat) ≠ 5)
  by_cases h4 : c.state = STATE_ALARM
  · rw [ok_alarm c h4]
    exact ⟨fun h => absurd h (by decide : (0 : Nat) ≠ 6),
      fun h => absurd h (by decide : (0 : Nat) ≠ 5)⟩
  · rw [ok_other c h1 h2 h3 h4]
    exact ⟨hi.ring, hi.notice⟩

theorem counterInv_step (c : Clock) (e : Event) (hv : Inv c) (hi : CounterInv c) :
    CounterInv (step c e) := by
  cases e with
  | timer => exact counterInv_onTimer c hi
  | button b =>
    cases b with
    | BUTTON_MENU => exact counterInv_menu c hi
    | BUTTON_PLUS => exact ⟨hi.ring, hi.notice⟩
    | BUTTON_MINUS => exact ⟨hi.ring, hi.notice⟩
    | BUTTON_OK => exact counterInv_ok c hv hi
  | switchAlarm b => exact ⟨hi.ring, hi.notice⟩

theorem counterInv_run (events : List Event) :
    ∀ c : Clock, Inv c → CounterInv c → CounterInv (run c events) := by
  induction events with
  | nil => intro c _ hi; exact hi
  | cons e l ih =>
    intro c hv hi
    rw [run_cons]
    exact ih _ (inv_step c e hv) (counterInv_step c e hv hi)

theorem counterInv_setup {c : Clock} (hs : Setup c) : CounterInv c := by
  induction hs with
  | initial a b _ _ =>
    exact ⟨fun h => absurd h (by decide : (0 : Nat) ≠ 6),
      fun h => absurd h (by decide : (0 : Nat) ≠ 5)⟩
  | set_time h m s _ _ _ _ ih => exact ⟨ih.ring, ih.notice⟩
  | set_alarm h m _ _ _ ih => exact ⟨ih.ring, ih.notice⟩

theorem counterInv_reachable {c : Clock} (hr : Reachable c) : CounterInv c := by
  obtain ⟨c₀, events, hs, rfl⟩ := hr
  exact counterInv_run events c₀ (inv_setup hs) (counterInv_setup hs)

theorem show_ring_decrement (c : Clock) (h : c.state = STATE_ALARM) :
    c.show.alarm_counter = (c.alarm_counter + 255) % 256 := by
  by_cases hc : (c.alarm_counter + 255) % 256 = 0
  · rw [(show_state_alarm_expire c h hc).2.1, hc]
  · exact (show_state_alarm c h hc).2.1

/-- C21: in every reachable state, whatever values the two counters had at
construction, `STATE_ALARM` implies 1 <= alarm_counter <= 60 and
`STATE_ALARM_OFF` implies 1 <= alarm_off_counter <= 6.  The same bounds hold
in the next tick at the call of `show`, after `update_time` and `check_alarm`,
so the pre-decrement there is applied to a counter of at least 1 and lowers it
by exactly one without wrapping to 255. -/
theorem counters_never_underflow (c : Clock) (hr : Reachable c) :
    (c.state = STATE_ALARM → 1 ≤ c.alarm_counter ∧ c.alarm_counter ≤ 60) ∧
    (c.state = STATE_ALARM_OFF → 1 ≤ c.alarm_off_counter ∧ c.alarm_off_counter ≤ 6) ∧
    (c.update_time.check_alarm.state = STATE_ALARM →
      1 ≤ c.update_time.check_alarm.alarm_counter ∧
      c.update_time.check_alarm.alarm_counter ≤ 60 ∧
      (onTimer c).alarm_counter + 1 = c.update_time.check_alarm.alarm_counter) ∧
    (c.update_time.check_alarm.state = STATE_ALARM_OFF →
      1 ≤ c.update_time.check_alarm.alarm_off_counter ∧
      c.update_time.check_alarm.alarm_off_counter ≤ 6 ∧
      (onTimer c).alarm_off_counter + 1 = c.update_time.check_alarm.alarm_off_counter) := by
  have hi := counterInv_reachable hr
  have hm := counterInv_check_alarm _ (counterInv_update_time c hi)
  refine ⟨hi.ring, hi.notice, ?_, ?_⟩
  · intro h
    have hk := hm.ring h
    refine ⟨hk.1, hk.2, ?_⟩
    unfold onTimer
    rw [show_ring_decrement _ h]
    omega
  · intro h
    have hk := hm.notice h
    refine ⟨hk.1, hk.2, ?_⟩
    unfold onTimer
    rw [(show_state_off _ h).1]
    omega

/-- C21 on the ringing clock two ticks after `set_time(6,59,59)`,
`set_alarm(7,0)`, switch on, with both counters 0 at construction. -/
theorem counters_never_underflow_witness :
    1 ≤ (run ((((Clock.initial 0 0).set_time 6 59 59).set_alarm 7 0))
      [Event.switchAlarm true, Event.timer, Event.timer]).alarm_counter ∧
    (run ((((Clock.initial 0 0).set_time 6 59 59).set_alarm 7 0))
      [Event.switchAlarm true, Event.timer, Event.timer]).alarm_counter ≤ 60 :=
  (counters_never_underflow
    (run ((((Clock.initial 0 0).set_time 6 59 59).set_alarm 7 0))
      [Event.switchAlarm true, Event.timer, Event.timer])
    ⟨((Clock.initial 0 0).set_time 6 59 59).set_alarm 7 0, _,
      Setup.set_alarm 7 0
        (Setup.set_time 6 59 59 (Setup.initial 0 0 (by decide) (by decide)) (by decide)
          (by decide) (by decide)) (by decide) (by decide), rfl⟩).1 (by decide)

end AlarmClock
